import Mathlib

/-!
# mDNS publish / browse module (avahi.c, bonjour.c)

A shallow embedding of the two backends of the Lua `mdns` module.

* C strings are `String`; `strcmp(a, b) == 0` is `a = b`.
* `uint16_t` and `uint32_t` values are `Nat`; where the C code converts an
  `int` to `uint16_t` the reduction modulo `2 ^ 16` is explicit.
* `int` status codes and counters are `Int`.
* A singly linked `service_t *` list is a `List service_t`, head first.
* Whatever the daemon (Avahi, dns_sd) decides is an argument of the function
  that asks for it: return codes of its calls, and the callbacks it delivers.
* A callback that runs under the session mutex is one atomic step of the
  session state; steps are sequenced explicitly.
* A NULL handle is `none`; a verb that goes through a NULL pointer ends in
  `Completion.nullDereference`.
* For the locking discipline the callbacks, avail and get are also written
  statement by statement (`*_traced`), each statement recording what it does
  to the mutex and the shared fields (`Op`), and shown to compute what the
  plain functions compute; interleavings of threads are not modelled.
-/

/-! ## Result list (the same code in avahi.c and bonjour.c) -/

/-- One node of the result list: `service_t` without its `next` pointer. -/
structure service_t where
  name : String
  type : String
  domain : String
  addr : String
  port : Nat
deriving DecidableEq, Repr

/-- The function `add_service`: a fresh node holding copies of the arguments
is linked in front of `s`. Nothing in `s` is inspected. -/
def add_service (s : List service_t) (name type domain addr : String) (port : Nat) :
    List service_t :=
  { name := name, type := type, domain := domain, addr := addr, port := port } :: s

/-- The test of the scan in `del_service`:
`!strcmp(name, t->name) && !strcmp(type, t->type) && !strcmp(domain, t->domain)`. -/
def del_match (name type domain : String) (t : service_t) : Bool :=
  decide (name = t.name) && decide (type = t.type) && decide (domain = t.domain)

/-- The scan of `del_service`. The list under construction is `kept ++ u`:
`kept` holds the nodes from `s` up to `prev` (so `prev == NULL` is `kept = []`),
`u` is the part still to scan. A node that matches is unlinked
(`prev->next = t->next`, or `s = t->next` when there is no `prev`) and the scan
resumes at its successor (`goto loop`); another node becomes `prev`. At the end
of the list `s` is returned. -/
def del_scan (name type domain : String) : List service_t → List service_t → List service_t
  | kept, [] => kept
  | kept, t :: next =>
    if del_match name type domain t then del_scan name type domain kept next
    else del_scan name type domain (kept ++ [t]) next

/-- The function `del_service`: `u = s`, `prev = NULL`, then the scan. -/
def del_service (s : List service_t) (name type domain : String) : List service_t :=
  del_scan name type domain [] s

/-- The identity key of a record: name, type and domain. -/
abbrev Key := String × String × String

/-- The identity key of a node. -/
def key (r : service_t) : Key := (r.name, r.type, r.domain)

/-- What a callback does to the result list: link a node in front, delete by
key, or leave the list alone. -/
inductive ListOp where
  | add (r : service_t)
  | del (k : Key)
  | keep
deriving DecidableEq, Repr

/-- The list after a `ListOp`, through `add_service` and `del_service`. -/
def ListOp.apply (s : List service_t) : ListOp → List service_t
  | .add r => add_service s r.name r.type r.domain r.addr r.port
  | .del k => del_service s k.1 k.2.1 k.2.2
  | .keep => s

/-- A sequence of list operations, in order. -/
def applyOps (s : List service_t) (ops : List ListOp) : List service_t :=
  ops.foldl ListOp.apply s

/-- The node an operation links in when it is an `add` for key `k`. -/
def ListOp.adds (k : Key) : ListOp → Option service_t
  | .add r => if key r = k then some r else none
  | _ => none

/-- The table that `get` builds: one record per node, in list order. -/
inductive GetResult where
  | error (code : Int)
  | records (rs : List service_t)
deriving DecidableEq, Repr

/-- What `avail` pushes: the integer when negative, else `lua_pushboolean`. -/
inductive AvailResult where
  | error (code : Int)
  | ready (b : Bool)
deriving DecidableEq, Repr

/-- What `check` pushes: nothing (`return 0`), an error code, or the table
with the fields `name`, `type` and `port`. -/
inductive CheckResult where
  | nothing
  | error (code : Int)
  | service (name type : String) (port : Nat)
deriving DecidableEq, Repr

/-- How a verb that was handed a handle ends: it returns with a value, or it
reads or writes through a NULL pointer. -/
inductive Completion (α : Type) where
  | returns (a : α)
  | nullDereference
deriving DecidableEq, Repr

/-- The calls by which `unpublish` and `close` give resources back, and the
one store that `bonjour_close` makes. -/
inductive Call where
  | avahi_entry_group_reset
  | avahi_simple_poll_quit
  | avahi_simple_poll_free
  | avahi_service_browser_free
  | avahi_client_free
  | DNSServiceRefDeallocate
  | set_done
  | pthread_join
  | pthread_mutex_destroy
  | free_name
  | free_type
  | free_services
  | free_record
deriving DecidableEq, Repr

/-- The three fields of a browser session that the lock is there for. -/
inductive SharedField where
  | services | avail | count
deriving DecidableEq, Repr

/-- What a statement does with the session mutex and the shared fields:
`pthread_mutex_lock`, `pthread_mutex_unlock`, a read or write of a field, a
call into the daemon's client library (avahi-client, dns_sd), and
`pthread_create`. -/
inductive Op where
  | lock
  | unlock
  | access (f : SharedField)
  | daemon
  | spawn
deriving DecidableEq, Repr

/-- Every access to one of `fields` happens while the mutex is held; `held`
says whether it is held on entry. -/
def guarded (fields : List SharedField) : Bool → List Op → Bool
  | _, [] => true
  | _, .lock :: rest => guarded fields true rest
  | _, .unlock :: rest => guarded fields false rest
  | held, .access f :: rest => (held || !fields.contains f) && guarded fields held rest
  | held, _ :: rest => guarded fields held rest

/-- No call into the daemon and no thread creation happens while the mutex is
held; `held` says whether it is held on entry. -/
def tight : Bool → List Op → Bool
  | _, [] => true
  | _, .lock :: rest => tight true rest
  | _, .unlock :: rest => tight false rest
  | held, .daemon :: rest => !held && tight held rest
  | held, .spawn :: rest => !held && tight held rest
  | held, _ :: rest => tight held rest

/-- A statement that touches no shared field, recorded after what ran before
it. -/
def traceOp {σ : Type} (op : Op) (p : σ × List Op) : σ × List Op :=
  (p.1, p.2 ++ [op])

/-- A statement that reads or writes the shared field `f` and leaves the
record `g` of the one before it. -/
def traceUpd {σ : Type} (f : SharedField) (g : σ → σ) (p : σ × List Op) : σ × List Op :=
  (g p.1, p.2 ++ [.access f])

namespace Avahi

/-! ## avahi.c: publishing -/

/-- The constant `AVAHI_ERR_COLLISION` of avahi-common/error.h. -/
def AVAHI_ERR_COLLISION : Int := -8

/-- The record `avahi_service_t`. `group` says whether `t->group` is non-NULL;
`quit` says whether `avahi_simple_poll_quit` has been called on
`t->simple_poll`. The client and poll pointers are non-NULL in every record
that `avahi_publish` returns and carry no other information. -/
structure avahi_service_t where
  group : Bool
  name : String
  type : String
  port : Nat
  ret : Int
  quit : Bool
deriving DecidableEq, Repr

/-- The states of `AvahiEntryGroupState`. -/
inductive AvahiEntryGroupState where
  | UNCOMMITED | REGISTERING | ESTABLISHED | COLLISION | FAILURE
deriving DecidableEq, Repr

/-- The states of `AvahiClientState`. -/
inductive AvahiClientState where
  | S_REGISTERING | S_RUNNING | S_COLLISION | FAILURE | CONNECTING
deriving DecidableEq, Repr

/-- The daemon's answers to one pass through `create_services`:
whether `avahi_entry_group_new` returns a group (asked only when `t->group` is
NULL), `avahi_entry_group_is_empty`, and the return codes of
`avahi_entry_group_add_service` and `avahi_entry_group_commit`. -/
structure GroupReply where
  newOk : Bool
  empty : Bool
  add : Int
  commit : Int
deriving DecidableEq, Repr

/-- The function `create_services`. `alt` is `avahi_alternative_service_name`.
Each pass uses one `GroupReply`; the `collision:` label renames and calls
`create_services` again, which uses the next one. `none` means the replies
ran out before the function returned. -/
def create_services (alt : String → String) (t : avahi_service_t) :
    List GroupReply → Option avahi_service_t
  | [] => none
  | r :: rest =>
    if t.group = false ∧ r.newOk = false then
      -- fail: avahi_simple_poll_quit
      some { t with quit := true }
    else
      let t := { t with group := true }
      if r.empty then
        if r.add < 0 then
          if r.add = AVAHI_ERR_COLLISION then
            -- collision: rename, reset the group, try again
            create_services alt { t with name := alt t.name } rest
          else
            some { t with ret := r.add, quit := true }
        else if r.commit < 0 then
          some { t with ret := r.commit, quit := true }
        else some t
      else some t

/-- The function `entry_group_callback`. `errno` is what `avahi_client_errno`
returns and `replies` are the daemon's answers to `create_services`; each is
used only in the state that asks for it. -/
def entry_group_callback (alt : String → String) (t : avahi_service_t)
    (state : AvahiEntryGroupState) (errno : Int) (replies : List GroupReply) :
    Option avahi_service_t :=
  let t := { t with group := true }
  match state with
  | .ESTABLISHED => some { t with ret := 1 }
  | .COLLISION => create_services alt { t with name := alt t.name } replies
  | .FAILURE => some { t with ret := errno, quit := true }
  | .UNCOMMITED => some t
  | .REGISTERING => some t

/-- The function `client_callback`. -/
def client_callback (alt : String → String) (t : avahi_service_t)
    (state : AvahiClientState) (errno : Int) (replies : List GroupReply) :
    Option avahi_service_t :=
  match state with
  | .S_RUNNING => create_services alt t replies
  | .FAILURE => some { t with ret := errno, quit := true }
  | .S_COLLISION => some t
  | .S_REGISTERING => some t
  | .CONNECTING => some t

/-- The function `avahi_publish`. `pollOk` and `clientOk` say whether
`avahi_simple_poll_new` and `avahi_client_new` return an object; without
either the result is NULL. `t->port = port` converts `int` to `uint16_t`. -/
def avahi_publish (name type : String) (port : Int) (pollOk clientOk : Bool) :
    Option avahi_service_t :=
  if pollOk = false then none
  else if clientOk = false then none
  else some { group := false, name := name, type := type,
              port := (port % 65536).toNat, ret := 0, quit := false }

/-- A callback dispatched by `avahi_simple_poll_iterate` on a publisher. -/
inductive PublisherEvent where
  | entryGroup (state : AvahiEntryGroupState) (errno : Int) (replies : List GroupReply)
  | client (state : AvahiClientState) (errno : Int) (replies : List GroupReply)
deriving DecidableEq, Repr

/-- The event of an entry-group COLLISION with `avahi_client_errno` `c.1`
whose call of `create_services` gets the single reply `c.2`. -/
def collision (c : Int × GroupReply) : PublisherEvent :=
  .entryGroup .COLLISION c.1 [c.2]

/-- One callback applied to the record. -/
def dispatch (alt : String → String) (t : avahi_service_t) :
    PublisherEvent → Option avahi_service_t
  | .entryGroup state errno replies => entry_group_callback alt t state errno replies
  | .client state errno replies => client_callback alt t state errno replies

/-- The callbacks of one `avahi_simple_poll_iterate`, in order. -/
def dispatchAll (alt : String → String) (t : avahi_service_t) :
    List PublisherEvent → Option avahi_service_t
  | [] => some t
  | e :: es =>
    match dispatch alt t e with
    | none => none
    | some t1 => dispatchAll alt t1 es

/-- The loop `while (!t->ret) avahi_simple_poll_iterate(t->simple_poll, -1)`.
Each element of the list is the callbacks that one call of
`avahi_simple_poll_iterate` dispatches; a poll object on which
`avahi_simple_poll_quit` has been called returns at once and dispatches
nothing. `none` means the loop is still running when the list is used up. -/
def check_wait (alt : String → String) (t : avahi_service_t) :
    List (List PublisherEvent) → Option avahi_service_t
  | [] => if t.ret = 0 then none else some t
  | it :: rest =>
    if t.ret = 0 then
      if t.quit then check_wait alt t rest
      else
        match dispatchAll alt t it with
        | none => none
        | some t1 => check_wait alt t1 rest
    else some t

/-- The function `l_avahi_check`, with the record it leaves behind. A NULL
handle pushes nothing; `none` means the wait loop has not finished. -/
def l_avahi_check (alt : String → String) (t : Option avahi_service_t)
    (iterations : List (List PublisherEvent)) : Option (CheckResult × Option avahi_service_t) :=
  match t with
  | none => some (.nothing, none)
  | some t =>
    match check_wait alt t iterations with
    | none => none
    | some t1 =>
      if t1.ret < 0 then some (.error t1.ret, some t1)
      else some (.service t1.name t1.type t1.port, some t1)

/-! ## avahi.c: browsing -/

/-- The record `avahi_browser_t`: the fields `ret`, `avail`, `count` and
`services`, and whether `avahi_simple_poll_quit` has been called on the loop
that the browser thread runs. -/
structure avahi_browser_t where
  ret : Int
  avail : Int
  count : Int
  services : List service_t
  quit : Bool
deriving DecidableEq, Repr

/-- The events of `AvahiResolverEvent`. -/
inductive AvahiResolverEvent where
  | FOUND | FAILURE
deriving DecidableEq, Repr

/-- The events of `AvahiBrowserEvent`. -/
inductive AvahiBrowserEvent where
  | NEW | REMOVE | CACHE_EXHAUSTED | ALL_FOR_NOW | FAILURE
deriving DecidableEq, Repr

/-- The function `resolve_callback` of avahi.c. `a` is the text that
`avahi_address_snprint` writes for the resolved address. -/
def resolve_callback (t : avahi_browser_t) (event : AvahiResolverEvent)
    (name type domain a : String) (port : Nat) : avahi_browser_t :=
  match event with
  | .FAILURE => { t with count := t.count - 1 }
  | .FOUND =>
    let t1 : avahi_browser_t := { t with count := t.count - 1 }
    let t2 : avahi_browser_t := if t1.count = 0 then { t1 with avail := 1 } else t1
    { t2 with services := add_service t2.services name type domain a port }

/-- The function `browse_callback` of avahi.c. `errno` is what
`avahi_client_errno` returns. Whether `avahi_service_resolver_new` succeeds
changes nothing in the record. -/
def browse_callback (t : avahi_browser_t) (event : AvahiBrowserEvent)
    (name type domain : String) (errno : Int) : avahi_browser_t :=
  match event with
  | .FAILURE => { t with ret := errno, quit := true }
  | .NEW => { t with count := t.count + 1 }
  | .REMOVE => { t with avail := 1, services := del_service t.services name type domain }
  | .ALL_FOR_NOW => t
  | .CACHE_EXHAUSTED => t

/-- The function `browser_client_callback`; `failure` is
`state == AVAHI_CLIENT_FAILURE`. -/
def browser_client_callback (t : avahi_browser_t) (failure : Bool) (errno : Int) :
    avahi_browser_t :=
  if failure then { t with ret := errno, quit := true } else t

/-- The function `avahi_avail`. -/
def avahi_avail (t : Option avahi_browser_t) : Int :=
  match t with
  | none => 0
  | some t => if t.ret < 0 then t.ret else t.avail

/-- The function `l_avahi_avail`. -/
def l_avahi_avail (t : Option avahi_browser_t) : AvailResult :=
  let ret := avahi_avail t
  if ret < 0 then .error ret else .ready (decide (ret ≠ 0))

/-- The function `l_avahi_get` on a session, with the session it leaves. -/
def l_avahi_get (t : avahi_browser_t) : GetResult × avahi_browser_t :=
  if t.ret < 0 then (.error t.ret, t)
  else (.records t.services, { t with avail := 0 })

/-- A callback that the browser thread dispatches on a session. -/
inductive Event where
  | browse (event : AvahiBrowserEvent) (name type domain : String) (errno : Int)
  | resolve (event : AvahiResolverEvent) (name type domain a : String) (port : Nat)
  | client (failure : Bool) (errno : Int)
deriving DecidableEq, Repr

/-- One callback applied to the session. -/
def step (t : avahi_browser_t) : Event → avahi_browser_t
  | .browse event name type domain errno => browse_callback t event name type domain errno
  | .resolve event name type domain a port => resolve_callback t event name type domain a port
  | .client failure errno => browser_client_callback t failure errno

/-- A sequence of callbacks applied to the session, in order. -/
def run (t : avahi_browser_t) (evs : List Event) : avahi_browser_t :=
  evs.foldl step t

/-- The list operation a callback performs: resolver FOUND links a node in,
browser REMOVE deletes by key, every other callback keeps the list. That this
is what `step` does is `Avahi.avahi_step_services`. -/
def listOp : Event → ListOp
  | .resolve .FOUND name type domain a port =>
    .add { name := name, type := type, domain := domain, addr := a, port := port }
  | .browse .REMOVE name type domain _ => .del (name, type, domain)
  | _ => .keep

/-- The function `avahi_unpublish`, as the calls it makes in order. The first
statement is `if (!t) return;`. The poll object, the name and the type are
non-NULL in every record that `avahi_publish` returns. -/
def avahi_unpublish (t : Option avahi_service_t) : List Call :=
  match t with
  | none => []
  | some t =>
    (if t.group then [Call.avahi_entry_group_reset] else [])
      ++ [.avahi_simple_poll_free, .free_name, .free_type, .free_record]

/-- The function `avahi_close`, as the calls it makes in order. The first
statement is `if (!t) return;`. Browser, client, poll object and type are
non-NULL in every record that `avahi_browse` returns. -/
def avahi_close (t : Option avahi_browser_t) : List Call :=
  match t with
  | none => []
  | some _ =>
    [.avahi_simple_poll_quit, .pthread_join, .avahi_service_browser_free, .avahi_client_free,
     .avahi_simple_poll_free, .free_type, .free_services, .pthread_mutex_destroy, .free_record]

/-- The function `l_avahi_get` on the handle that `lua_touserdata` returns.
Its first statement is `pthread_mutex_lock(&t->mutex)` and the next reads
`t->ret`; there is no test of `t`. -/
def l_avahi_get_handle (t : Option avahi_browser_t) :
    Completion (GetResult × avahi_browser_t) :=
  match t with
  | none => .nullDereference
  | some t => .returns (l_avahi_get t)

/-- The function `resolve_callback` of avahi.c statement by statement, with
what each statement does to the mutex and the shared fields. FAILURE:
`t->count--`. FOUND: lock, `--t->count`, `t->avail = 1` when the counter is
now 0, `t->services = add_service(t->services, ...)`, unlock. Both end with
`avahi_service_resolver_free(r)`. -/
def resolve_callback_traced (t : avahi_browser_t) (event : AvahiResolverEvent)
    (name type domain a : String) (port : Nat) : avahi_browser_t × List Op :=
  match event with
  | .FAILURE =>
    traceOp .daemon (traceUpd .count (fun s => { s with count := s.count - 1 }) (t, []))
  | .FOUND =>
    let p1 := traceUpd .count (fun s => { s with count := s.count - 1 }) (traceOp .lock (t, []))
    let p2 := if p1.1.count = 0 then traceUpd .avail (fun s => { s with avail := 1 }) p1 else p1
    let p3 := traceUpd .services
      (fun s => { s with services := add_service s.services name type domain a port }) p2
    traceOp .daemon (traceOp .unlock p3)

/-- The function `browse_callback` of avahi.c statement by statement.
FAILURE: `t->ret = avahi_client_errno(...)`, then `avahi_simple_poll_quit`.
NEW: `t->count++`, then `avahi_service_resolver_new`. REMOVE: lock,
`t->avail = 1`, `t->services = del_service(t->services, ...)`, unlock. -/
def browse_callback_traced (t : avahi_browser_t) (event : AvahiBrowserEvent)
    (name type domain : String) (errno : Int) : avahi_browser_t × List Op :=
  match event with
  | .FAILURE => traceOp .daemon ({ t with ret := errno, quit := true }, [])
  | .NEW =>
    traceOp .daemon (traceUpd .count (fun s => { s with count := s.count + 1 }) (t, []))
  | .REMOVE =>
    traceOp .unlock
      (traceUpd .services (fun s => { s with services := del_service s.services name type domain })
        (traceUpd .avail (fun s => { s with avail := 1 }) (traceOp .lock (t, []))))
  | .ALL_FOR_NOW => (t, [])
  | .CACHE_EXHAUSTED => (t, [])

/-- The function `avahi_avail` statement by statement: nothing on the NULL
handle; else lock, `t->ret` or, when that is not negative, `t->avail`,
unlock. -/
def avahi_avail_traced (t : Option avahi_browser_t) : Int × List Op :=
  match t with
  | none => (0, [])
  | some t =>
    if t.ret < 0 then (t.ret, [.lock, .unlock])
    else (t.avail, [.lock, .access .avail, .unlock])

/-- The function `l_avahi_get` on a session statement by statement: lock,
and unless `t->ret < 0` the walk over `t->services` and `t->avail = 0`,
unlock. -/
def l_avahi_get_traced (t : avahi_browser_t) : (GetResult × avahi_browser_t) × List Op :=
  if t.ret < 0 then ((.error t.ret, t), [.lock, .unlock])
  else
    traceOp .unlock
      (traceUpd .avail (fun s : GetResult × avahi_browser_t => (s.1, { s.2 with avail := 0 }))
        (traceUpd .services (fun s => (GetResult.records s.2.services, s.2))
          (traceOp .lock ((GetResult.records [], t), []))))

end Avahi

namespace Bonjour

/-! ## bonjour.c: publishing -/

/-- The constant `kDNSServiceErr_NoError` of dns_sd.h. -/
def kDNSServiceErr_NoError : Int := 0

/-- The constant `kDNSServiceErr_Unsupported` of dns_sd.h. -/
def kDNSServiceErr_Unsupported : Int := -65544

/-- The constant `kDNSServiceFlagsAdd` of dns_sd.h. -/
def kDNSServiceFlagsAdd : Nat := 2

/-- The record `bonjour_service_t` (the daemon reference apart). -/
structure bonjour_service_t where
  done : Bool
  gc : Bool
  name : String
  type : String
  port : Nat
  ret : Int
deriving DecidableEq, Repr

/-- The arguments of one `register_callback` that the code reads. -/
structure RegisterReply where
  ret : Int
  name : String
  type : String
deriving DecidableEq, Repr

/-- The function `register_callback`. -/
def register_callback (t : bonjour_service_t) (ret : Int) (name type : String) :
    bonjour_service_t :=
  let t := { t with ret := ret }
  if ret ≠ kDNSServiceErr_NoError then t
  else
    let t := if t.name ≠ name then { t with name := name } else t
    if t.type ≠ type then { t with type := type } else t

/-- The function `bonjour_publish`. `err` is the return code of
`DNSServiceRegister`; `t->port = port` converts `int` to `uint16_t`. -/
def bonjour_publish (name type : String) (port : Int) (err : Int) : Option bonjour_service_t :=
  if err ≠ kDNSServiceErr_NoError then none
  else some { done := false, gc := false, name := name, type := type,
              port := (port % 65536).toNat, ret := 0 }

/-- One call of `DNSServiceProcessResult` on the registration: the
`register_callback`s it delivers, in order, and its return code. -/
structure ProcessResult where
  callbacks : List RegisterReply
  code : Int
deriving DecidableEq, Repr

/-- The callbacks of one `DNSServiceProcessResult` applied to the record. -/
def deliver (t : bonjour_service_t) (cbs : List RegisterReply) : bonjour_service_t :=
  cbs.foldl (fun t cb => register_callback t cb.ret cb.name cb.type) t

/-- The function `l_bonjour_check`, with the record it leaves behind.
`pr` is what `DNSServiceProcessResult` does if it is called, which is when
`t->done` is false. -/
def l_bonjour_check (t : Option bonjour_service_t) (pr : ProcessResult) :
    CheckResult × Option bonjour_service_t :=
  match t with
  | none => (.nothing, none)
  | some t =>
    let t1 := if t.done then t else deliver t pr.callbacks
    let ret := if t.done then t.ret else pr.code
    let t2 := { t1 with done := true }
    if ret ≠ kDNSServiceErr_NoError then (.error ret, some t2)
    else if t2.ret < 0 then (.error t2.ret, some t2)
    else (.service t2.name t2.type t2.port, some t2)

/-! ## bonjour.c: browsing -/

/-- The record `bonjour_browser_t` (daemon reference, thread and mutex apart). -/
structure bonjour_browser_t where
  done : Bool
  gc : Bool
  ret : Int
  avail : Int
  services : List service_t
deriving DecidableEq, Repr

/-- The record `bonjour_resolver_t` without its back-reference `t`, which the
callbacks below take as their session argument. -/
structure bonjour_resolver_t where
  done : Bool
  gc : Bool
  name : String
  type : String
  domain : String
  port : Nat
deriving DecidableEq, Repr

/-- The function `ntohs` on a little-endian host: the two bytes swapped. -/
def ntohs (port : Nat) : Nat :=
  (port % 256) * 256 + (port / 256) % 256

/-- The text `sprintf(ip, "%u.%u.%u.%u", i1, i2, i3, i4)` writes for
`addr = in->sin_addr.s_addr`. -/
def ip_text (addr : Nat) : String :=
  let i1 := addr &&& 0xff
  let i2 := (addr >>> 8) &&& 0xff
  let i3 := (addr >>> 16) &&& 0xff
  let i4 := (addr >>> 24) &&& 0xff
  toString i1 ++ "." ++ toString i2 ++ "." ++ toString i3 ++ "." ++ toString i4

/-- The function `getaddr_callback`: the session and the resolver context
after the call. `addr` is `s_addr` of the address delivered. -/
def getaddr_callback (t : bonjour_browser_t) (r : bonjour_resolver_t) (ret : Int)
    (addr : Nat) : bonjour_browser_t × bonjour_resolver_t :=
  let t1 :=
    if ret ≠ kDNSServiceErr_NoError then t
    else { t with avail := 1,
                  services := add_service t.services r.name r.type r.domain (ip_text addr) r.port }
  (t1, { r with done := true, gc := true })

/-- The function `resolve_callback` of bonjour.c: the session, the resolver
context of this callback, and the context of the address lookup when one was
started. `linux` is `#ifdef __linux__`; `getAddrRet` is the return code of
`DNSServiceGetAddrInfo` and `threadRet` that of `pthread_create`. -/
def resolve_callback (linux : Bool) (t : bonjour_browser_t) (r : bonjour_resolver_t)
    (ret : Int) (port : Nat) (getAddrRet threadRet : Int) :
    bonjour_browser_t × bonjour_resolver_t × Option bonjour_resolver_t :=
  let r1 := { r with done := true, gc := true }
  if ret ≠ kDNSServiceErr_NoError then (t, r1, none)
  else
    let r2 : bonjour_resolver_t :=
      { done := false, gc := false, name := r.name, type := r.type, domain := r.domain,
        port := ntohs port }
    let ret := if linux then kDNSServiceErr_Unsupported else getAddrRet
    if ret = kDNSServiceErr_NoError then
      if threadRet ≠ 0 then (t, r1, none) else (t, r1, some r2)
    else (t, r1, none)

/-- The function `browse_callback` of bonjour.c: the session, and the resolver
context when a resolution was started. `resolveRet` is the return code of
`DNSServiceResolve` and `threadRet` that of `pthread_create`. -/
def browse_callback (t : bonjour_browser_t) (flags : Nat) (ret : Int)
    (name type domain : String) (resolveRet threadRet : Int) :
    bonjour_browser_t × Option bonjour_resolver_t :=
  let t := { t with ret := ret }
  if ret ≠ kDNSServiceErr_NoError then ({ t with done := true }, none)
  else if flags &&& kDNSServiceFlagsAdd ≠ 0 then
    let r : bonjour_resolver_t :=
      { done := false, gc := false, name := name, type := type, domain := domain, port := 0 }
    if resolveRet = kDNSServiceErr_NoError then
      if threadRet ≠ 0 then (t, none) else (t, some r)
    else (t, none)
  else
    ({ t with avail := 1, services := del_service t.services name type domain }, none)

/-- The function `bonjour_avail`. -/
def bonjour_avail (t : Option bonjour_browser_t) : Int :=
  match t with
  | none => 0
  | some t => if t.ret < 0 then t.ret else t.avail

/-- The function `l_bonjour_avail`. -/
def l_bonjour_avail (t : Option bonjour_browser_t) : AvailResult :=
  let ret := bonjour_avail t
  if ret < 0 then .error ret else .ready (decide (ret ≠ 0))

/-- The function `l_bonjour_get` on a session, with the session it leaves. -/
def l_bonjour_get (t : bonjour_browser_t) : GetResult × bonjour_browser_t :=
  if t.ret < 0 then (.error t.ret, t)
  else (.records t.services, { t with avail := 0 })

/-- A callback that a worker thread dispatches on a session. -/
inductive Event where
  | browse (flags : Nat) (ret : Int) (name type domain : String) (resolveRet threadRet : Int)
  | resolve (linux : Bool) (r : bonjour_resolver_t) (ret : Int) (port : Nat)
      (getAddrRet threadRet : Int)
  | getaddr (r : bonjour_resolver_t) (ret : Int) (addr : Nat)
deriving DecidableEq, Repr

/-- One callback applied to the session. -/
def step (t : bonjour_browser_t) : Event → bonjour_browser_t
  | .browse flags ret name type domain resolveRet threadRet =>
    (browse_callback t flags ret name type domain resolveRet threadRet).1
  | .resolve linux r ret port getAddrRet threadRet =>
    (resolve_callback linux t r ret port getAddrRet threadRet).1
  | .getaddr r ret addr => (getaddr_callback t r ret addr).1

/-- A sequence of callbacks applied to the session, in order. -/
def run (t : bonjour_browser_t) (evs : List Event) : bonjour_browser_t :=
  evs.foldl step t

/-- The list operation a callback performs: an address lookup that reports no
error links a node in, a browse callback with no error and without the Add
flag deletes by key, every other callback keeps the list. That this is what
`step` does is `Bonjour.bonjour_step_services`. -/
def listOp : Event → ListOp
  | .getaddr r ret addr =>
    if ret ≠ kDNSServiceErr_NoError then .keep
    else .add { name := r.name, type := r.type, domain := r.domain,
                addr := ip_text addr, port := r.port }
  | .browse flags ret name type domain _ _ =>
    if ret ≠ kDNSServiceErr_NoError then .keep
    else if flags &&& kDNSServiceFlagsAdd ≠ 0 then .keep
    else .del (name, type, domain)
  | .resolve _ _ _ _ _ _ => .keep

/-- The function `bonjour_unpublish`, as the calls it makes in order. The
first statement is `if (!t) return;`. -/
def bonjour_unpublish (t : Option bonjour_service_t) : List Call :=
  match t with
  | none => []
  | some _ => [.DNSServiceRefDeallocate, .free_name, .free_type, .free_record]

/-- The function `bonjour_close`, as the calls it makes in order. The first
statement is `if (!t) return;`. -/
def bonjour_close (t : Option bonjour_browser_t) : List Call :=
  match t with
  | none => []
  | some _ =>
    [.set_done, .pthread_join, .free_type, .free_services, .pthread_mutex_destroy, .free_record]

/-- The function `l_bonjour_get` on the handle that `lua_touserdata` returns.
Its first statement is `pthread_mutex_lock(&t->mutex)` and the next reads
`t->ret`; there is no test of `t`. -/
def l_bonjour_get_handle (t : Option bonjour_browser_t) :
    Completion (GetResult × bonjour_browser_t) :=
  match t with
  | none => .nullDereference
  | some t => .returns (l_bonjour_get t)

/-- The number that a string of decimal digits writes, most significant digit
first. Used to read the four numbers of an address text back. -/
def digitsValue (cs : List Char) : Nat :=
  cs.foldl (fun n c => n * 10 + (c.toNat - 48)) 0

/-- The function `getaddr_callback` statement by statement: on success
lock, `t->avail = 1`, `t->services = add_service(t->services, ...)`, unlock;
then `r->done = r->gc = true`. -/
def getaddr_callback_traced (t : bonjour_browser_t) (r : bonjour_resolver_t) (ret : Int)
    (addr : Nat) : (bonjour_browser_t × bonjour_resolver_t) × List Op :=
  let p : bonjour_browser_t × List Op :=
    if ret ≠ kDNSServiceErr_NoError then (t, [])
    else
      traceOp .unlock
        (traceUpd .services
          (fun s =>
            { s with
              services := add_service s.services r.name r.type r.domain (ip_text addr) r.port })
          (traceUpd .avail (fun s => { s with avail := 1 }) (traceOp .lock (t, []))))
  ((p.1, { r with done := true, gc := true }), p.2)

/-- The function `resolve_callback` of bonjour.c statement by statement. It
never takes the mutex. On success and off Linux it calls
`DNSServiceGetAddrInfo`, then `pthread_create`, and `DNSServiceRefDeallocate`
when no thread was created. -/
def resolve_callback_traced (linux : Bool) (t : bonjour_browser_t) (r : bonjour_resolver_t)
    (ret : Int) (port : Nat) (getAddrRet threadRet : Int) :
    (bonjour_browser_t × bonjour_resolver_t × Option bonjour_resolver_t) × List Op :=
  let r1 : bonjour_resolver_t := { r with done := true, gc := true }
  if ret ≠ kDNSServiceErr_NoError then ((t, r1, none), [])
  else
    let r2 : bonjour_resolver_t :=
      { done := false, gc := false, name := r.name, type := r.type, domain := r.domain,
        port := ntohs port }
    if linux then ((t, r1, none), [])
    else if getAddrRet = kDNSServiceErr_NoError then
      if threadRet ≠ 0 then ((t, r1, none), [.daemon, .spawn, .daemon])
      else ((t, r1, some r2), [.daemon, .spawn])
    else ((t, r1, none), [.daemon])

/-- The function `browse_callback` of bonjour.c statement by statement: lock
first and unlock last. In between `t->ret = ret`; on an error `t->done = true`;
for an added instance `DNSServiceResolve`, then `pthread_create`, and
`DNSServiceRefDeallocate` when no thread was created; for a removed one
`t->avail = 1` and `t->services = del_service(t->services, ...)`. -/
def browse_callback_traced (t : bonjour_browser_t) (flags : Nat) (ret : Int)
    (name type domain : String) (resolveRet threadRet : Int) :
    (bonjour_browser_t × Option bonjour_resolver_t) × List Op :=
  let p0 : bonjour_browser_t × List Op := traceOp .lock (t, [])
  let p1 : bonjour_browser_t × List Op := ({ p0.1 with ret := ret }, p0.2)
  if ret ≠ kDNSServiceErr_NoError then
    ((({ p1.1 with done := true } : bonjour_browser_t), none), (traceOp .unlock p1).2)
  else if flags &&& kDNSServiceFlagsAdd ≠ 0 then
    let r : bonjour_resolver_t :=
      { done := false, gc := false, name := name, type := type, domain := domain, port := 0 }
    let p2 := traceOp .daemon p1
    if resolveRet = kDNSServiceErr_NoError then
      let p3 := traceOp .spawn p2
      if threadRet ≠ 0 then ((p3.1, none), (traceOp .unlock (traceOp .daemon p3)).2)
      else ((p3.1, some r), (traceOp .unlock p3).2)
    else ((p2.1, none), (traceOp .unlock p2).2)
  else
    let p2 := traceOp .unlock
      (traceUpd .services (fun s => { s with services := del_service s.services name type domain })
        (traceUpd .avail (fun s => { s with avail := 1 }) p1))
    ((p2.1, none), p2.2)

/-- The function `bonjour_avail` statement by statement: nothing on the NULL
handle; else lock, `t->ret` or, when that is not negative, `t->avail`,
unlock. -/
def bonjour_avail_traced (t : Option bonjour_browser_t) : Int × List Op :=
  match t with
  | none => (0, [])
  | some t =>
    if t.ret < 0 then (t.ret, [.lock, .unlock])
    else (t.avail, [.lock, .access .avail, .unlock])

/-- The function `l_bonjour_get` on a session statement by statement: lock,
and unless `t->ret < 0` the walk over `t->services` and `t->avail = 0`,
unlock. -/
def l_bonjour_get_traced (t : bonjour_browser_t) :
    (GetResult × bonjour_browser_t) × List Op :=
  if t.ret < 0 then ((.error t.ret, t), [.lock, .unlock])
  else
    traceOp .unlock
      (traceUpd .avail (fun s : GetResult × bonjour_browser_t => (s.1, { s.2 with avail := 0 }))
        (traceUpd .services (fun s => (GetResult.records s.2.services, s.2))
          (traceOp .lock ((GetResult.records [], t), []))))

end Bonjour

/-! ## Lemmas on the result list -/

theorem del_match_iff (name type domain : String) (t : service_t) :
    del_match name type domain t = true ↔ key t = (name, type, domain) := by
  simp only [del_match, key, Bool.and_eq_true, decide_eq_true_eq, Prod.mk.injEq]
  constructor
  · rintro ⟨⟨h1, h2⟩, h3⟩
    exact ⟨h1.symm, h2.symm, h3.symm⟩
  · rintro ⟨h1, h2, h3⟩
    exact ⟨⟨h1.symm, h2.symm⟩, h3.symm⟩

theorem del_scan_eq (name type domain : String) (u : List service_t) :
    ∀ kept : List service_t,
      del_scan name type domain kept u
        = kept ++ u.filter (fun x => !del_match name type domain x) := by
  induction u with
  | nil => intro kept; simp [del_scan]
  | cons t next ih =>
    intro kept
    by_cases h : del_match name type domain t = true
    · simp [del_scan, h, ih]
    · simp [del_scan, h, ih]

theorem del_service_eq_filter (s : List service_t) (k : Key) :
    del_service s k.1 k.2.1 k.2.2 = s.filter (fun x => decide (key x ≠ k)) := by
  unfold del_service
  rw [del_scan_eq]
  simp only [List.nil_append]
  apply List.filter_congr
  intro x _
  by_cases h : del_match k.1 k.2.1 k.2.2 x = true
  · have h2 := (del_match_iff _ _ _ x).1 h
    simp [h, h2]
  · have h2 : ¬ key x = k := fun hk => h ((del_match_iff _ _ _ x).2 hk)
    simp [h, h2]

theorem ListOp.apply_add (s : List service_t) (r : service_t) :
    ListOp.apply s (.add r) = r :: s := rfl

theorem ListOp.apply_del (s : List service_t) (k : Key) :
    ListOp.apply s (.del k) = s.filter (fun x => decide (key x ≠ k)) :=
  del_service_eq_filter s k

theorem applyOps_snoc (s : List service_t) (ops : List ListOp) (op : ListOp) :
    applyOps s (ops ++ [op]) = ListOp.apply (applyOps s ops) op := by
  simp [applyOps, List.foldl_append]

theorem applyOps_cons (s : List service_t) (ops : List ListOp) (op : ListOp) :
    applyOps s (op :: ops) = applyOps (ListOp.apply s op) ops := rfl

theorem applyOps_append (s : List service_t) (a b : List ListOp) :
    applyOps s (a ++ b) = applyOps (applyOps s a) b := by
  simp [applyOps, List.foldl_append]

theorem applyOps_keeps {α : Type} (l : List α) (s : List service_t) :
    applyOps s (l.map (fun _ => ListOp.keep)) = s := by
  induction l with
  | nil => rfl
  | cons a l ih => rw [List.map_cons, applyOps_cons]; exact ih

/-- Splitting a list that ends in `e` at an element `x` with `P` (which may
look at what comes before `x`) after which all elements have `Q`: either `e`
is that element, or the split lies before `e` and `e` has `Q`. -/
theorem split_snoc_iff {α : Type} (P : List α → α → Prop) (Q : α → Prop)
    (init : List α) (e : α) :
    (∃ pre x post, init ++ [e] = pre ++ x :: post ∧ P pre x ∧ ∀ y ∈ post, Q y)
      ↔ P init e
        ∨ ((∃ pre x post, init = pre ++ x :: post ∧ P pre x ∧ ∀ y ∈ post, Q y) ∧ Q e) := by
  constructor
  · rintro ⟨pre, x, post, h, hP, hQ⟩
    rcases List.eq_nil_or_concat post with hpost | ⟨post1, z, hpost⟩
    · subst hpost
      have h2 := List.append_inj' h rfl
      have h3 : e = x := by simpa using h2.2
      have h4 : init = pre := h2.1
      exact Or.inl (h3 ▸ h4 ▸ hP)
    · subst hpost
      have h1 : init ++ [e] = (pre ++ x :: post1) ++ [z] := by simpa using h
      have h2 := List.append_inj' h1 rfl
      have h3 : e = z := by simpa using h2.2
      refine Or.inr ⟨⟨pre, x, post1, h2.1, hP, ?_⟩, ?_⟩
      · intro y hy
        exact hQ y (by simp [hy])
      · rw [h3]
        exact hQ z (by simp)
  · rintro (hP | ⟨⟨pre, x, post, h, hP, hQ⟩, hQe⟩)
    · exact ⟨init, e, [], rfl, hP, by simp⟩
    · refine ⟨pre, x, post ++ [e], by simp [h], hP, ?_⟩
      intro y hy
      rcases List.mem_append.1 hy with h1 | h1
      · exact hQ y h1
      · have : y = e := by simpa using h1
        rw [this]; exact hQe

/-- A key is in the list after a sequence of operations, started on the empty
list, exactly when some operation adds a node with that key and no later
operation deletes the key. -/
theorem applyOps_mem_iff {α : Type} (f : α → ListOp) (k : Key) (evs : List α) :
    (∃ r ∈ applyOps [] (evs.map f), key r = k)
      ↔ ∃ pre x post, evs = pre ++ x :: post
          ∧ (∃ r, f x = ListOp.add r ∧ key r = k) ∧ ∀ y ∈ post, f y ≠ ListOp.del k := by
  induction evs using List.reverseRecOn with
  | nil =>
    constructor
    · rintro ⟨r, hr, _⟩
      simp [applyOps] at hr
    · rintro ⟨pre, x, post, h, _⟩
      simp at h
  | append_singleton init e ih =>
    rw [split_snoc_iff (fun _ x => ∃ r, f x = ListOp.add r ∧ key r = k)
      (fun y => f y ≠ ListOp.del k) init e, ← ih]
    rw [List.map_append, List.map_singleton, applyOps_snoc]
    cases hfe : f e with
    | add r =>
      rw [ListOp.apply_add]
      constructor
      · rintro ⟨r1, hr1, hk⟩
        rcases List.mem_cons.1 hr1 with h | h
        · exact Or.inl ⟨r, rfl, h ▸ hk⟩
        · exact Or.inr ⟨⟨r1, h, hk⟩, by simp⟩
      · rintro (⟨r1, h1, hk⟩ | ⟨⟨r1, h1, hk⟩, _⟩)
        · cases h1
          exact ⟨r, List.mem_cons_self _ _, hk⟩
        · exact ⟨r1, List.mem_cons_of_mem _ h1, hk⟩
    | del k1 =>
      rw [ListOp.apply_del]
      constructor
      · rintro ⟨r1, hr1, hk⟩
        have h2 := List.mem_filter.1 hr1
        refine Or.inr ⟨⟨r1, h2.1, hk⟩, ?_⟩
        intro h3
        cases h3
        simp [hk] at h2
      · rintro (⟨r1, h1, _⟩ | ⟨⟨r1, h1, hk⟩, hne⟩)
        · cases h1
        · refine ⟨r1, List.mem_filter.2 ⟨h1, ?_⟩, hk⟩
          have : k ≠ k1 := fun h => hne (by rw [h])
          simp [hk, this]
    | keep =>
      constructor
      · rintro ⟨r1, hr1, hk⟩
        exact Or.inr ⟨⟨r1, hr1, hk⟩, by simp⟩
      · rintro (⟨r1, h1, _⟩ | ⟨h, _⟩)
        · cases h1
        · exact h

/-- The nodes with key `k` after a sequence of operations none of which
deletes `k`: the nodes added for `k`, last added first, then those of the
starting list. -/
theorem applyOps_filter_key (k : Key) (ops : List ListOp)
    (hno : ∀ y ∈ ops, y ≠ ListOp.del k) :
    ∀ s : List service_t,
      (applyOps s ops).filter (fun x => decide (key x = k))
        = (ops.filterMap (ListOp.adds k)).reverse ++ s.filter (fun x => decide (key x = k)) := by
  induction ops with
  | nil => intro s; simp [applyOps]
  | cons op ops ih =>
    intro s
    have hno1 : ∀ y ∈ ops, y ≠ ListOp.del k := fun y hy => hno y (List.mem_cons_of_mem _ hy)
    have hop : op ≠ ListOp.del k := hno op (List.mem_cons_self _ _)
    rw [applyOps_cons, ih hno1]
    cases op with
    | add r =>
      rw [ListOp.apply_add]
      by_cases hk : key r = k
      · simp [ListOp.adds, hk, List.filter_cons]
      · simp [ListOp.adds, hk, List.filter_cons]
    | del k1 =>
      have hne : k1 ≠ k := fun h => hop (by rw [h])
      rw [ListOp.apply_del, List.filter_filter]
      have : List.filter (fun a => decide (key a = k) && decide (key a ≠ k1)) s
          = List.filter (fun x => decide (key x = k)) s := by
        apply List.filter_congr
        intro x _
        by_cases h1 : key x = k
        · have : key x ≠ k1 := fun h => hne (h ▸ h1)
          simp [h1, this]
          exact fun h => hne h.symm
        · simp [h1]
      have hfm : List.filterMap (ListOp.adds k) (ListOp.del k1 :: ops)
          = List.filterMap (ListOp.adds k) ops := by
        simp [ListOp.adds]
      rw [hfm, this]
    | keep => simp [ListOp.adds, ListOp.apply]

namespace Avahi

theorem avahi_step_services (t : avahi_browser_t) (e : Event) :
    (step t e).services = ListOp.apply t.services (listOp e) := by
  cases e with
  | browse event name type domain errno =>
    cases event <;> simp [step, browse_callback, listOp, ListOp.apply]
  | resolve event name type domain a port =>
    cases event
    · simp only [step, resolve_callback, listOp, ListOp.apply]
      split <;> rfl
    · simp [step, resolve_callback, listOp, ListOp.apply]
  | client failure errno =>
    cases failure <;> simp [step, browser_client_callback, listOp, ListOp.apply]

theorem avahi_run_snoc (t : avahi_browser_t) (evs : List Event) (e : Event) :
    run t (evs ++ [e]) = step (run t evs) e := by
  simp [run, List.foldl_append]

theorem avahi_run_services (evs : List Event) :
    ∀ t : avahi_browser_t, (run t evs).services = applyOps t.services (evs.map listOp) := by
  induction evs with
  | nil => intro t; rfl
  | cons e evs ih =>
    intro t
    show (run (step t e) evs).services = _
    rw [ih, avahi_step_services]
    rfl

theorem avahi_listOp_add_iff (k : Key) (x : Event) :
    (∃ r, listOp x = ListOp.add r ∧ key r = k)
      ↔ ∃ a p, x = Event.resolve .FOUND k.1 k.2.1 k.2.2 a p := by
  constructor
  · rintro ⟨r, h, hk⟩
    cases x with
    | browse event name type domain errno => cases event <;> simp [listOp] at h
    | resolve event name type domain a port =>
      cases event
      · simp only [listOp, ListOp.add.injEq] at h
        subst h
        simp only [key] at hk
        subst hk
        exact ⟨a, port, rfl⟩
      · simp [listOp] at h
    | client failure errno => simp [listOp] at h
  · rintro ⟨a, p, h⟩
    subst h
    exact ⟨_, rfl, rfl⟩

theorem avahi_listOp_del_iff (k : Key) (y : Event) :
    listOp y = ListOp.del k ↔ ∃ errno, y = Event.browse .REMOVE k.1 k.2.1 k.2.2 errno := by
  constructor
  · intro h
    cases y with
    | browse event name type domain errno =>
      cases event <;> simp [listOp] at h
      subst h
      exact ⟨errno, rfl⟩
    | resolve event name type domain a port => cases event <;> simp [listOp] at h
    | client failure errno => simp [listOp] at h
  · rintro ⟨errno, h⟩
    subst h
    rfl

end Avahi

namespace Bonjour

theorem resolve_callback_session (linux : Bool) (t : bonjour_browser_t)
    (r : bonjour_resolver_t) (ret : Int) (port : Nat) (getAddrRet threadRet : Int) :
    (resolve_callback linux t r ret port getAddrRet threadRet).1 = t := by
  simp only [resolve_callback]
  split_ifs <;> rfl

theorem bonjour_step_services (t : bonjour_browser_t) (e : Event) :
    (step t e).services = ListOp.apply t.services (listOp e) := by
  cases e with
  | browse flags ret name type domain resolveRet threadRet =>
    simp only [step, browse_callback, listOp]
    split
    · rfl
    · split
      · split
        · split <;> rfl
        · rfl
      · rfl
  | resolve linux r ret port getAddrRet threadRet =>
    simp only [step, resolve_callback_session, listOp]
    rfl
  | getaddr r ret addr =>
    simp only [step, getaddr_callback, listOp]
    split <;> rfl

theorem bonjour_run_snoc (t : bonjour_browser_t) (evs : List Event) (e : Event) :
    run t (evs ++ [e]) = step (run t evs) e := by
  simp [run, List.foldl_append]

theorem bonjour_run_services (evs : List Event) :
    ∀ t : bonjour_browser_t, (run t evs).services = applyOps t.services (evs.map listOp) := by
  induction evs with
  | nil => intro t; rfl
  | cons e evs ih =>
    intro t
    show (run (step t e) evs).services = _
    rw [ih, bonjour_step_services]
    rfl

theorem bonjour_listOp_add_iff (k : Key) (x : Event) :
    (∃ r, listOp x = ListOp.add r ∧ key r = k)
      ↔ ∃ r addr, x = Event.getaddr r 0 addr ∧ (r.name, r.type, r.domain) = k := by
  constructor
  · rintro ⟨r, h, hk⟩
    cases x with
    | browse flags ret name type domain resolveRet threadRet =>
      simp only [listOp] at h
      split at h
      · cases h
      · split at h <;> cases h
    | resolve linux r ret port getAddrRet threadRet => cases h
    | getaddr r1 ret addr =>
      simp only [listOp] at h
      split at h
      · cases h
      · rename_i hret
        have hret0 : ret = 0 := by simpa [kDNSServiceErr_NoError] using hret
        subst hret0
        cases h
        exact ⟨r1, addr, rfl, hk⟩
  · rintro ⟨r, addr, h, hk⟩
    subst h
    refine ⟨{ name := r.name, type := r.type, domain := r.domain, addr := ip_text addr,
              port := r.port }, ?_, hk⟩
    simp [listOp, kDNSServiceErr_NoError]

theorem bonjour_listOp_del_iff (k : Key) (y : Event) :
    listOp y = ListOp.del k
      ↔ ∃ flags resolveRet threadRet, flags &&& 2 = 0
          ∧ y = Event.browse flags 0 k.1 k.2.1 k.2.2 resolveRet threadRet := by
  constructor
  · intro h
    cases y with
    | browse flags ret name type domain resolveRet threadRet =>
      simp only [listOp] at h
      split at h
      · cases h
      · rename_i hret
        have hret0 : ret = 0 := by simpa [kDNSServiceErr_NoError] using hret
        split at h
        · cases h
        · rename_i hflags
          have hf : flags &&& 2 = 0 := by simpa [kDNSServiceFlagsAdd] using hflags
          cases h
          subst hret0
          exact ⟨flags, resolveRet, threadRet, hf, rfl⟩
    | resolve linux r ret port getAddrRet threadRet => cases h
    | getaddr r1 ret addr =>
      simp only [listOp] at h
      split at h <;> cases h
  · rintro ⟨flags, resolveRet, threadRet, hf, h⟩
    subst h
    simp [listOp, kDNSServiceErr_NoError, kDNSServiceFlagsAdd, hf]

end Bonjour

namespace Avahi

end Avahi

namespace Bonjour

end Bonjour

/-! ## The readiness flag of an Avahi session -/

namespace Avahi

/-- A callback sets the flag when it is a browser REMOVE, or a resolver FOUND
that arrives while the pending counter is 1. -/
theorem step_avail (t : avahi_browser_t) (e : Event) :
    (step t e).avail = 1
      ↔ t.avail = 1 ∨ ((∃ n ty d errno, e = Event.browse .REMOVE n ty d errno)
          ∨ ((∃ n ty d a p, e = Event.resolve .FOUND n ty d a p) ∧ t.count = 1)) := by
  cases e with
  | browse event name type domain errno =>
    cases event <;> simp [step, browse_callback]
  | resolve event name type domain a port =>
    cases event
    · simp only [step, resolve_callback]
      by_cases hc : t.count = 1
      · simp [hc]
      · have hc1 : ¬ t.count - 1 = 0 := by omega
        simp [hc, hc1]
    · simp [step, resolve_callback]
  | client failure errno =>
    cases failure <;> simp [step, browser_client_callback]

theorem step_avail_bit (t : avahi_browser_t) (e : Event)
    (h : t.avail = 0 ∨ t.avail = 1) : (step t e).avail = 0 ∨ (step t e).avail = 1 := by
  cases e with
  | browse event name type domain errno =>
    cases event <;> simp [step, browse_callback, h]
  | resolve event name type domain a port =>
    cases event
    · simp only [step, resolve_callback]
      split
      · exact Or.inr rfl
      · exact h
    · simpa [step, resolve_callback] using h
  | client failure errno =>
    cases failure <;> simpa [step, browser_client_callback] using h

theorem run_avail_bit (evs : List Event) (t : avahi_browser_t)
    (h : t.avail = 0 ∨ t.avail = 1) : (run t evs).avail = 0 ∨ (run t evs).avail = 1 := by
  induction evs using List.reverseRecOn with
  | nil => exact h
  | append_singleton init e ih =>
    rw [avahi_run_snoc]
    exact step_avail_bit _ e ih

theorem run_avail (evs : List Event) (t : avahi_browser_t) :
    (run t evs).avail = 1
      ↔ t.avail = 1 ∨ ∃ pre x post, evs = pre ++ x :: post
          ∧ ((∃ n ty d errno, x = Event.browse .REMOVE n ty d errno)
            ∨ ((∃ n ty d a p, x = Event.resolve .FOUND n ty d a p)
                ∧ (run t pre).count = 1)) := by
  induction evs using List.reverseRecOn with
  | nil =>
    constructor
    · intro h; exact Or.inl h
    · rintro (h | ⟨pre, x, post, h, _⟩)
      · exact h
      · simp at h
  | append_singleton init e ih =>
    have hs := split_snoc_iff
      (fun pre x => (∃ n ty d errno, x = Event.browse .REMOVE n ty d errno)
        ∨ ((∃ n ty d a p, x = Event.resolve .FOUND n ty d a p) ∧ (run t pre).count = 1))
      (fun _ => True) init e
    simp only [implies_true, and_true] at hs
    rw [hs, avahi_run_snoc, step_avail, ih]
    constructor
    · rintro ((h1 | h2) | h3)
      · exact Or.inl h1
      · exact Or.inr (Or.inr h2)
      · exact Or.inr (Or.inl h3)
    · rintro (h1 | h3 | h2)
      · exact Or.inl (Or.inl h1)
      · exact Or.inr h3
      · exact Or.inl (Or.inr h2)

theorem run_services_keep (evs : List Event) (t : avahi_browser_t)
    (h : ∀ x ∈ evs, listOp x = ListOp.keep) : (run t evs).services = t.services := by
  rw [avahi_run_services]
  have h1 : evs.map listOp = evs.map (fun _ => ListOp.keep) :=
    List.map_congr_left h
  rw [h1, applyOps_keeps]

theorem listOp_keep (x : Event)
    (h1 : ¬ ∃ n ty d errno, x = Event.browse .REMOVE n ty d errno)
    (h2 : ¬ ∃ n ty d a p, x = Event.resolve .FOUND n ty d a p) : listOp x = ListOp.keep := by
  cases x with
  | browse event name type domain errno =>
    cases event <;> first | rfl | exact absurd ⟨_, _, _, _, rfl⟩ h1
  | resolve event name type domain a port =>
    cases event <;> first | rfl | exact absurd ⟨_, _, _, _, _, rfl⟩ h2
  | client failure errno => rfl

end Avahi

/-! ## Publishing -/

theorem toNat_port (port : Nat) (hport : port ≤ 65535) :
    (((port : Int)) % 65536).toNat = port := by
  omega

namespace Avahi

theorem entry_group_collision (alt : String → String) (t : avahi_service_t)
    (errno : Int) (r : GroupReply) (hadd : ¬ r.add < 0) (hcommit : ¬ r.commit < 0) :
    entry_group_callback alt t .COLLISION errno [r]
      = some { t with group := true, name := alt t.name } := by
  cases hempty : r.empty <;>
    simp [entry_group_callback, create_services, hadd, hcommit, hempty]

theorem dispatchAll_collisions (alt : String → String) (cs : List (Int × GroupReply))
    (hok : ∀ c ∈ cs, ¬ c.2.add < 0 ∧ ¬ c.2.commit < 0) :
    ∀ (t : avahi_service_t) (rest : List PublisherEvent),
      ∃ t1, t1.ret = t.ret ∧ t1.name = alt^[cs.length] t.name ∧ t1.type = t.type
        ∧ t1.port = t.port ∧ t1.quit = t.quit
        ∧ dispatchAll alt t (cs.map collision ++ rest) = dispatchAll alt t1 rest := by
  induction cs with
  | nil => intro t rest; exact ⟨t, rfl, rfl, rfl, rfl, rfl, rfl⟩
  | cons c cs ih =>
    intro t rest
    have hc := hok c (List.mem_cons_self _ _)
    have hcs : ∀ c1 ∈ cs, ¬ c1.2.add < 0 ∧ ¬ c1.2.commit < 0 :=
      fun c1 h1 => hok c1 (List.mem_cons_of_mem _ h1)
    obtain ⟨t1, h1, h2, h3, h4, h5, h6⟩ :=
      ih hcs { t with group := true, name := alt t.name } rest
    refine ⟨t1, h1, ?_, h3, h4, h5, ?_⟩
    · rw [h2, List.length_cons, Function.iterate_succ_apply]
    · rw [← h6]
      simp [dispatchAll, dispatch, collision, entry_group_collision alt t c.1 c.2 hc.1 hc.2]

theorem check_wait_collisions (alt : String → String) (cs : List (Int × GroupReply))
    (hok : ∀ c ∈ cs, ¬ c.2.add < 0 ∧ ¬ c.2.commit < 0) :
    ∀ (t : avahi_service_t) (rest : List (List PublisherEvent)),
      t.ret = 0 → t.quit = false →
      ∃ t1, t1.ret = 0 ∧ t1.name = alt^[cs.length] t.name ∧ t1.type = t.type
        ∧ t1.port = t.port ∧ t1.quit = false
        ∧ check_wait alt t (cs.map (fun c => [collision c]) ++ rest)
            = check_wait alt t1 rest := by
  induction cs with
  | nil => intro t rest h0 hq; exact ⟨t, h0, rfl, rfl, rfl, hq, rfl⟩
  | cons c cs ih =>
    intro t rest h0 hq
    have hc := hok c (List.mem_cons_self _ _)
    have hcs : ∀ c1 ∈ cs, ¬ c1.2.add < 0 ∧ ¬ c1.2.commit < 0 :=
      fun c1 h1 => hok c1 (List.mem_cons_of_mem _ h1)
    obtain ⟨t1, h1, h2, h3, h4, h5, h6⟩ :=
      ih hcs { t with group := true, name := alt t.name } rest h0 hq
    refine ⟨t1, h1, ?_, h3, h4, h5, ?_⟩
    · rw [h2, List.length_cons, Function.iterate_succ_apply]
    · rw [← h6]
      simp [check_wait, h0, hq, dispatchAll, dispatch, collision,
        entry_group_collision alt t c.1 c.2 hc.1 hc.2]

end Avahi

/-- C1. Round trip of publish and check, for a port in 0..65535. Avahi: when
the first callback that check's wait loop dispatches is an ESTABLISHED
entry-group callback, or when it dispatches the client RUNNING callback whose
registration succeeds (a group is created, add and commit return no error),
then REGISTERING, then ESTABLISHED, check returns the
table with the name, type and port given to publish. Bonjour: when the event
processing of check returns no error and delivers one register callback with no
error and the same name and type, check returns that same table. -/
theorem publish_check_roundtrip (name type : String) (port : Nat) (hport : port ≤ 65535) :
    (∀ (alt : String → String) (errno : Int) (replies : List Avahi.GroupReply)
        (later : List (List Avahi.PublisherEvent)),
      (Avahi.l_avahi_check alt (Avahi.avahi_publish name type port true true)
          ([.entryGroup .ESTABLISHED errno replies] :: later)).map Prod.fst
        = some (CheckResult.service name type port))
    ∧ (∀ (alt : String → String) (e1 e2 e3 : Int) (r : Avahi.GroupReply)
        (later : List (List Avahi.PublisherEvent)),
      r.newOk = true → ¬ r.add < 0 → ¬ r.commit < 0 →
      (Avahi.l_avahi_check alt (Avahi.avahi_publish name type port true true)
          ([.client .S_RUNNING e1 [r]] :: [.entryGroup .REGISTERING e2 []]
            :: [.entryGroup .ESTABLISHED e3 []] :: later)).map Prod.fst
        = some (CheckResult.service name type port))
    ∧ (Bonjour.l_bonjour_check (Bonjour.bonjour_publish name type port 0)
          { callbacks := [{ ret := 0, name := name, type := type }], code := 0 }).1
        = CheckResult.service name type port := by
  have hp := toNat_port port hport
  refine ⟨?_, ?_, ?_⟩
  · intro alt errno replies later
    simp [Avahi.l_avahi_check, Avahi.avahi_publish, Avahi.check_wait, Avahi.dispatchAll,
      Avahi.dispatch, Avahi.entry_group_callback, hp]
    cases later <;> simp [Avahi.check_wait, hp]
  · intro alt e1 e2 e3 r later hnew hadd hcommit
    cases hempty : r.empty <;>
      simp [Avahi.l_avahi_check, Avahi.avahi_publish, Avahi.check_wait, Avahi.dispatchAll,
        Avahi.dispatch, Avahi.entry_group_callback, Avahi.client_callback,
        Avahi.create_services, hadd, hcommit, hempty, hnew, hp] <;>
      cases later <;> simp [Avahi.check_wait, hp]
  · simp [Bonjour.l_bonjour_check, Bonjour.bonjour_publish, Bonjour.deliver,
      Bonjour.register_callback, Bonjour.kDNSServiceErr_NoError, hp]

/-- Witness of C1: svc-A of type _test._tcp on port 9000, on both backends. -/
theorem publish_check_roundtrip_witness :
    (Avahi.l_avahi_check id (Avahi.avahi_publish "svc-A" "_test._tcp" 9000 true true)
        ([.entryGroup .ESTABLISHED 0 []] :: [])).map Prod.fst
      = some (CheckResult.service "svc-A" "_test._tcp" 9000)
    ∧ (Bonjour.l_bonjour_check (Bonjour.bonjour_publish "svc-A" "_test._tcp" 9000 0)
          { callbacks := [{ ret := 0, name := "svc-A", type := "_test._tcp" }], code := 0 }).1
        = CheckResult.service "svc-A" "_test._tcp" 9000 :=
  ⟨(publish_check_roundtrip "svc-A" "_test._tcp" 9000 (by decide)).1 id 0 [] [],
   (publish_check_roundtrip "svc-A" "_test._tcp" 9000 (by decide)).2.2⟩

/-- C7. Avahi, n collisions then ESTABLISHED, each collision retry registering
without error (add and commit not negative). Started on the record that
publish returns: after the first k collisions (every k up to n) the outcome
code is still 0, the name is the alternative-name transform applied k times,
type and port are the stored ones; after the ESTABLISHED callback the outcome
is 1; and check, dispatching these callbacks one per iteration, returns the
table with the name transformed n times and the type and port of publish. -/
theorem collisions_then_established (alt : String → String) (name type : String) (port : Int)
    (cs : List (Int × Avahi.GroupReply))
    (hok : ∀ c ∈ cs, ¬ c.2.add < 0 ∧ ¬ c.2.commit < 0)
    (errno : Int) (replies : List Avahi.GroupReply)
    (later : List (List Avahi.PublisherEvent)) :
    ∃ t0, Avahi.avahi_publish name type port true true = some t0
      ∧ t0.port = (port % 65536).toNat
      ∧ (∀ k, k ≤ cs.length →
          ∃ tk, Avahi.dispatchAll alt t0 ((cs.take k).map Avahi.collision) = some tk
            ∧ tk.ret = 0 ∧ tk.name = alt^[k] name ∧ tk.type = type ∧ tk.port = t0.port)
      ∧ (∃ t1, Avahi.dispatchAll alt t0
              (cs.map Avahi.collision ++ [.entryGroup .ESTABLISHED errno replies]) = some t1
            ∧ t1.ret = 1 ∧ t1.name = alt^[cs.length] name ∧ t1.type = type
            ∧ t1.port = t0.port)
      ∧ (Avahi.l_avahi_check alt (some t0)
            (cs.map (fun c => [Avahi.collision c])
              ++ [.entryGroup .ESTABLISHED errno replies] :: later)).map Prod.fst
          = some (CheckResult.service (alt^[cs.length] name) type t0.port) := by
  refine ⟨{ group := false, name := name, type := type, port := (port % 65536).toNat,
            ret := 0, quit := false }, by simp [Avahi.avahi_publish], rfl, ?_, ?_, ?_⟩
  · intro k hk
    have hok1 : ∀ c ∈ cs.take k, ¬ c.2.add < 0 ∧ ¬ c.2.commit < 0 :=
      fun c hc => hok c (List.mem_of_mem_take hc)
    obtain ⟨t1, h1, h2, h3, h4, _, h6⟩ := Avahi.dispatchAll_collisions alt (cs.take k) hok1
      { group := false, name := name, type := type, port := (port % 65536).toNat,
        ret := 0, quit := false } []
    refine ⟨t1, ?_, h1, ?_, h3, h4⟩
    · rw [List.append_nil] at h6
      rw [h6]; rfl
    · rw [h2, List.length_take, Nat.min_eq_left hk]
  · obtain ⟨t1, h1, h2, h3, h4, _, h6⟩ := Avahi.dispatchAll_collisions alt cs hok
      { group := false, name := name, type := type, port := (port % 65536).toNat,
        ret := 0, quit := false } [.entryGroup .ESTABLISHED errno replies]
    refine ⟨{ t1 with group := true, ret := 1 }, ?_, rfl, h2, h3, h4⟩
    rw [h6]
    simp [Avahi.dispatchAll, Avahi.dispatch, Avahi.entry_group_callback]
  · obtain ⟨t1, h1, h2, h3, h4, h5, h6⟩ := Avahi.check_wait_collisions alt cs hok
      { group := false, name := name, type := type, port := (port % 65536).toNat,
        ret := 0, quit := false } ([.entryGroup .ESTABLISHED errno replies] :: later) rfl rfl
    simp only [Avahi.l_avahi_check]
    rw [h6]
    have hw : Avahi.check_wait alt t1 ([.entryGroup .ESTABLISHED errno replies] :: later)
        = some { t1 with group := true, ret := 1 } := by
      simp only [Avahi.check_wait, h1, h5, Avahi.dispatchAll, Avahi.dispatch,
        Avahi.entry_group_callback]
      cases later <;> simp [Avahi.check_wait]
    rw [hw]
    simp [h2, h3, h4]

/-- Witness of C7: two collisions with the transform that appends a star. -/
theorem collisions_then_established_witness :
    ∃ t0, Avahi.avahi_publish "svc" "_t._tcp" 9000 true true = some t0
      ∧ (Avahi.l_avahi_check (fun s => s ++ "*") (some t0)
            ([Avahi.collision (0, ⟨true, true, 0, 0⟩)] :: [Avahi.collision (0, ⟨true, true, 0, 0⟩)]
              :: [.entryGroup .ESTABLISHED 0 []] :: [])).map Prod.fst
          = some (CheckResult.service "svc**" "_t._tcp" 9000) := by
  obtain ⟨t0, h0, hp, _, _, h⟩ := collisions_then_established (fun s => s ++ "*") "svc" "_t._tcp"
    9000 [(0, ⟨true, true, 0, 0⟩), (0, ⟨true, true, 0, 0⟩)] (by decide) 0 [] []
  refine ⟨t0, h0, ?_⟩
  rw [hp] at h
  exact h

/-- C8. Bonjour. A register callback with no error that reports name n1 and
type t1 leaves the record with name n1, type t1 and outcome 0, and a register
callback with a negative code e changes only the outcome, to e. On the record
that publish returns for a port in 0..65535, check, whose event processing
returns no error and delivers the callback, returns the table with n1, t1 and
the port given to publish in the first case, and the code e in the second,
where the record keeps the name and type given to publish. -/
theorem register_callback_check (name type n1 t1 : String) (port : Nat) (hport : port ≤ 65535)
    (e : Int) (he : e < 0) :
    (∀ t : Bonjour.bonjour_service_t,
        Bonjour.register_callback t 0 n1 t1 = { t with ret := 0, name := n1, type := t1 })
    ∧ (∀ t : Bonjour.bonjour_service_t,
        Bonjour.register_callback t e n1 t1 = { t with ret := e })
    ∧ Bonjour.l_bonjour_check (Bonjour.bonjour_publish name type port 0)
          { callbacks := [{ ret := 0, name := n1, type := t1 }], code := 0 }
        = (CheckResult.service n1 t1 port,
           some { done := true, gc := false, name := n1, type := t1, port := port, ret := 0 })
    ∧ Bonjour.l_bonjour_check (Bonjour.bonjour_publish name type port 0)
          { callbacks := [{ ret := e, name := n1, type := t1 }], code := 0 }
        = (CheckResult.error e,
           some { done := true, gc := false, name := name, type := type, port := port,
                  ret := e }) := by
  have hp := toNat_port port hport
  have hne : e ≠ 0 := by omega
  have h1 : ∀ t : Bonjour.bonjour_service_t,
      Bonjour.register_callback t 0 n1 t1 = { t with ret := 0, name := n1, type := t1 } := by
    intro t
    rcases t with ⟨d, g, n, ty, p, r⟩
    by_cases hn : n = n1 <;> by_cases ht : ty = t1 <;>
      simp [Bonjour.register_callback, Bonjour.kDNSServiceErr_NoError, hn, ht]
  have h2 : ∀ t : Bonjour.bonjour_service_t,
      Bonjour.register_callback t e n1 t1 = { t with ret := e } := by
    intro t
    simp [Bonjour.register_callback, Bonjour.kDNSServiceErr_NoError, hne]
  refine ⟨h1, h2, ?_, ?_⟩
  · simp [Bonjour.l_bonjour_check, Bonjour.bonjour_publish, Bonjour.deliver, h1,
      Bonjour.kDNSServiceErr_NoError, hp]
  · simp [Bonjour.l_bonjour_check, Bonjour.bonjour_publish, Bonjour.deliver, h2,
      Bonjour.kDNSServiceErr_NoError, hp, he]

/-- Witness of C8: a renamed service, and the error code -65548. -/
theorem register_callback_check_witness :
    Bonjour.l_bonjour_check (Bonjour.bonjour_publish "svc" "_t._tcp" 9000 0)
          { callbacks := [{ ret := 0, name := "svc (2)", type := "_t._tcp." }], code := 0 }
        = (CheckResult.service "svc (2)" "_t._tcp." 9000,
           some { done := true, gc := false, name := "svc (2)", type := "_t._tcp.",
                  port := 9000, ret := 0 })
    ∧ Bonjour.l_bonjour_check (Bonjour.bonjour_publish "svc" "_t._tcp" 9000 0)
          { callbacks := [{ ret := -65548, name := "svc (2)", type := "_t._tcp." }], code := 0 }
        = (CheckResult.error (-65548),
           some { done := true, gc := false, name := "svc", type := "_t._tcp", port := 9000,
                  ret := -65548 }) :=
  (register_callback_check "svc" "_t._tcp" "svc (2)" "_t._tcp." 9000 (by decide)
    (-65548) (by decide)).2.2

/-! ## Browsing -/

/-- C2. Net effect of a callback sequence on the result list, on both
backends, for a session started with an empty list and every sequence of
callbacks (successful resolutions, REMOVE events and all others): the list
holds an entry with key k exactly when the sequence contains a successful
resolution for k (Avahi: resolver FOUND; Bonjour: an address lookup reporting
no error) after which no REMOVE for k follows (Avahi: browser REMOVE; Bonjour: a
browse callback with no error and without the Add flag). -/
theorem result_list_net_effect (k : Key) :
    (∀ (t0 : Avahi.avahi_browser_t) (evs : List Avahi.Event), t0.services = [] →
      ((∃ r ∈ (Avahi.run t0 evs).services, key r = k)
        ↔ ∃ pre x post, evs = pre ++ x :: post
            ∧ (∃ a p, x = Avahi.Event.resolve .FOUND k.1 k.2.1 k.2.2 a p)
            ∧ ∀ y ∈ post, ∀ errno, y ≠ Avahi.Event.browse .REMOVE k.1 k.2.1 k.2.2 errno))
    ∧ (∀ (t0 : Bonjour.bonjour_browser_t) (evs : List Bonjour.Event), t0.services = [] →
      ((∃ r ∈ (Bonjour.run t0 evs).services, key r = k)
        ↔ ∃ pre x post, evs = pre ++ x :: post
            ∧ (∃ r addr, x = Bonjour.Event.getaddr r 0 addr ∧ (r.name, r.type, r.domain) = k)
            ∧ ∀ y ∈ post, ∀ flags resolveRet threadRet, flags &&& 2 = 0 →
                y ≠ Bonjour.Event.browse flags 0 k.1 k.2.1 k.2.2 resolveRet threadRet)) := by
  constructor
  · intro t0 evs h0
    rw [Avahi.avahi_run_services, h0, applyOps_mem_iff]
    constructor
    · rintro ⟨pre, x, post, h, hP, hQ⟩
      refine ⟨pre, x, post, h, (Avahi.avahi_listOp_add_iff k x).1 hP, ?_⟩
      intro y hy errno he
      exact hQ y hy ((Avahi.avahi_listOp_del_iff k y).2 ⟨errno, he⟩)
    · rintro ⟨pre, x, post, h, hP, hQ⟩
      refine ⟨pre, x, post, h, (Avahi.avahi_listOp_add_iff k x).2 hP, ?_⟩
      intro y hy he
      obtain ⟨errno, h1⟩ := (Avahi.avahi_listOp_del_iff k y).1 he
      exact hQ y hy errno h1
  · intro t0 evs h0
    rw [Bonjour.bonjour_run_services, h0, applyOps_mem_iff]
    constructor
    · rintro ⟨pre, x, post, h, hP, hQ⟩
      refine ⟨pre, x, post, h, (Bonjour.bonjour_listOp_add_iff k x).1 hP, ?_⟩
      intro y hy flags rr tr hf he
      exact hQ y hy ((Bonjour.bonjour_listOp_del_iff k y).2 ⟨flags, rr, tr, hf, he⟩)
    · rintro ⟨pre, x, post, h, hP, hQ⟩
      refine ⟨pre, x, post, h, (Bonjour.bonjour_listOp_add_iff k x).2 hP, ?_⟩
      intro y hy he
      obtain ⟨flags, rr, tr, hf, h1⟩ := (Bonjour.bonjour_listOp_del_iff k y).1 he
      exact hQ y hy flags rr tr hf h1

/-- Witness of C2: X and Y resolved, then X removed; the key of Y is in the
list of the Avahi session. -/
theorem result_list_net_effect_witness :
    ∃ r ∈ (Avahi.run { ret := 0, avail := 0, count := 0, services := [], quit := false }
        [.resolve .FOUND "X" "_test._tcp" "local" "10.0.0.1" 1111,
         .resolve .FOUND "Y" "_test._tcp" "local" "10.0.0.2" 2222,
         .browse .REMOVE "X" "_test._tcp" "local" 0]).services,
      key r = ("Y", "_test._tcp", "local") :=
  ((result_list_net_effect ("Y", "_test._tcp", "local")).1
      { ret := 0, avail := 0, count := 0, services := [], quit := false } _ rfl).2
    ⟨[.resolve .FOUND "X" "_test._tcp" "local" "10.0.0.1" 1111],
     .resolve .FOUND "Y" "_test._tcp" "local" "10.0.0.2" 2222,
     [.browse .REMOVE "X" "_test._tcp" "local" 0], rfl, ⟨"10.0.0.2", 2222, rfl⟩, by simp⟩

/-- Counterexample to C4: the same key resolved twice, as when an instance is
reported on two interfaces. The result list then holds two entries with that
key, on both backends. -/
theorem result_list_duplicate_key :
    (Avahi.run { ret := 0, avail := 0, count := 0, services := [], quit := false }
        [.browse .NEW "X" "_test._tcp" "local" 0,
         .resolve .FOUND "X" "_test._tcp" "local" "10.0.0.1" 1111,
         .browse .NEW "X" "_test._tcp" "local" 0,
         .resolve .FOUND "X" "_test._tcp" "local" "10.0.0.2" 1111]).services
      = [⟨"X", "_test._tcp", "local", "10.0.0.2", 1111⟩,
         ⟨"X", "_test._tcp", "local", "10.0.0.1", 1111⟩]
    ∧ (Bonjour.run { done := false, gc := false, ret := 0, avail := 0, services := [] }
        [.getaddr ⟨false, false, "X", "_test._tcp", "local", 1111⟩ 0 0x0100000a,
         .getaddr ⟨false, false, "X", "_test._tcp", "local", 1111⟩ 0 0x0200000a]).services
      = [⟨"X", "_test._tcp", "local", "10.0.0.2", 1111⟩,
         ⟨"X", "_test._tcp", "local", "10.0.0.1", 1111⟩]
    ∧ ¬ (([⟨"X", "_test._tcp", "local", "10.0.0.2", 1111⟩,
           ⟨"X", "_test._tcp", "local", "10.0.0.1", 1111⟩] : List service_t).map key).Nodup := by
  refine ⟨by decide, by decide, by decide⟩

/-- C4 as amended. On both backends a successful resolution links its node in
front of the list whatever the list holds, and REMOVE deletes every node with
its key. For a session started with an empty list and a callback sequence
`pre ++ post` in which no REMOVE for k occurs in `post` and `pre` is empty or
ends with a REMOVE for k: the entries with key k are exactly the nodes that
the successful resolutions for k in `post` linked in, the most recent first. -/
theorem result_list_entries_per_key (k : Key) :
    (∀ (t0 : Avahi.avahi_browser_t) (pre post : List Avahi.Event), t0.services = [] →
      (pre = [] ∨ ∃ pre1 errno,
          pre = pre1 ++ [Avahi.Event.browse .REMOVE k.1 k.2.1 k.2.2 errno]) →
      (∀ y ∈ post, ∀ errno, y ≠ Avahi.Event.browse .REMOVE k.1 k.2.1 k.2.2 errno) →
      (Avahi.run t0 (pre ++ post)).services.filter (fun x => decide (key x = k))
        = ((post.map Avahi.listOp).filterMap (ListOp.adds k)).reverse)
    ∧ (∀ (t0 : Bonjour.bonjour_browser_t) (pre post : List Bonjour.Event), t0.services = [] →
      (pre = [] ∨ ∃ pre1 flags resolveRet threadRet, flags &&& 2 = 0 ∧
          pre = pre1 ++ [Bonjour.Event.browse flags 0 k.1 k.2.1 k.2.2 resolveRet threadRet]) →
      (∀ y ∈ post, ∀ flags resolveRet threadRet, flags &&& 2 = 0 →
          y ≠ Bonjour.Event.browse flags 0 k.1 k.2.1 k.2.2 resolveRet threadRet) →
      (Bonjour.run t0 (pre ++ post)).services.filter (fun x => decide (key x = k))
        = ((post.map Bonjour.listOp).filterMap (ListOp.adds k)).reverse) := by
  have hdel : ∀ s : List service_t,
      (ListOp.apply s (ListOp.del k)).filter (fun x => decide (key x = k)) = [] := by
    intro s
    rw [ListOp.apply_del, List.filter_filter, List.filter_eq_nil_iff]
    intro x _
    by_cases h : key x = k <;> simp [h]
  constructor
  · intro t0 pre post h0 hpre hpost
    have hno : ∀ y ∈ post.map Avahi.listOp, y ≠ ListOp.del k := by
      intro y hy he
      obtain ⟨e, hemem, rfl⟩ := List.mem_map.1 hy
      obtain ⟨errno, h1⟩ := (Avahi.avahi_listOp_del_iff k e).1 he
      exact hpost e hemem errno h1
    rw [Avahi.avahi_run_services, h0, List.map_append, applyOps_append,
      applyOps_filter_key k _ hno]
    rcases hpre with h | ⟨pre1, errno, h⟩
    · subst h
      simp [applyOps]
    · subst h
      rw [List.map_append, List.map_singleton, applyOps_snoc,
        (Avahi.avahi_listOp_del_iff k _).2 ⟨errno, rfl⟩, hdel, List.append_nil]
  · intro t0 pre post h0 hpre hpost
    have hno : ∀ y ∈ post.map Bonjour.listOp, y ≠ ListOp.del k := by
      intro y hy he
      obtain ⟨e, hemem, rfl⟩ := List.mem_map.1 hy
      obtain ⟨flags, rr, tr, hf, h1⟩ := (Bonjour.bonjour_listOp_del_iff k e).1 he
      exact hpost e hemem flags rr tr hf h1
    rw [Bonjour.bonjour_run_services, h0, List.map_append, applyOps_append,
      applyOps_filter_key k _ hno]
    rcases hpre with h | ⟨pre1, flags, rr, tr, hf, h⟩
    · subst h
      simp [applyOps]
    · subst h
      rw [List.map_append, List.map_singleton, applyOps_snoc,
        (Bonjour.bonjour_listOp_del_iff k _).2 ⟨flags, rr, tr, hf, rfl⟩, hdel, List.append_nil]

/-- Witness of C4 as amended: X resolved, removed, then resolved twice; the
list holds the two later nodes for X, the most recent first. -/
theorem result_list_entries_per_key_witness :
    (Avahi.run { ret := 0, avail := 0, count := 0, services := [], quit := false }
        ([.resolve .FOUND "X" "_test._tcp" "local" "10.0.0.9" 1111,
          .browse .REMOVE "X" "_test._tcp" "local" 0]
          ++ [.resolve .FOUND "X" "_test._tcp" "local" "10.0.0.1" 1111,
              .resolve .FOUND "X" "_test._tcp" "local" "10.0.0.2" 1111])).services.filter
        (fun x => decide (key x = ("X", "_test._tcp", "local")))
      = [⟨"X", "_test._tcp", "local", "10.0.0.2", 1111⟩,
         ⟨"X", "_test._tcp", "local", "10.0.0.1", 1111⟩] :=
  ((result_list_entries_per_key ("X", "_test._tcp", "local")).1
      { ret := 0, avail := 0, count := 0, services := [], quit := false }
      [.resolve .FOUND "X" "_test._tcp" "local" "10.0.0.9" 1111,
       .browse .REMOVE "X" "_test._tcp" "local" 0]
      [.resolve .FOUND "X" "_test._tcp" "local" "10.0.0.1" 1111,
       .resolve .FOUND "X" "_test._tcp" "local" "10.0.0.2" 1111]
      rfl (Or.inr ⟨[.resolve .FOUND "X" "_test._tcp" "local" "10.0.0.9" 1111], 0, rfl⟩)
      (by simp)).trans (by decide)

/-- C5. On both backends, for a session whose error code is not negative: get
returns the records of the list, avail called right after it returns false,
and a second get with no callback in between returns the same records. -/
theorem get_twice_same :
    (∀ t : Avahi.avahi_browser_t, ¬ t.ret < 0 →
      (Avahi.l_avahi_get t).1 = GetResult.records t.services
        ∧ Avahi.l_avahi_avail (some (Avahi.l_avahi_get t).2) = AvailResult.ready false
        ∧ (Avahi.l_avahi_get (Avahi.l_avahi_get t).2).1 = (Avahi.l_avahi_get t).1)
    ∧ (∀ t : Bonjour.bonjour_browser_t, ¬ t.ret < 0 →
      (Bonjour.l_bonjour_get t).1 = GetResult.records t.services
        ∧ Bonjour.l_bonjour_avail (some (Bonjour.l_bonjour_get t).2) = AvailResult.ready false
        ∧ (Bonjour.l_bonjour_get (Bonjour.l_bonjour_get t).2).1 = (Bonjour.l_bonjour_get t).1) := by
  constructor
  · intro t h
    simp [Avahi.l_avahi_get, Avahi.l_avahi_avail, Avahi.avahi_avail, h]
  · intro t h
    simp [Bonjour.l_bonjour_get, Bonjour.l_bonjour_avail, Bonjour.bonjour_avail, h]

/-- Witness of C5: an Avahi session with one record and the flag set. -/
theorem get_twice_same_witness :
    Avahi.l_avahi_avail (some (Avahi.l_avahi_get
        { ret := 0, avail := 1, count := 0,
          services := [⟨"Y", "_test._tcp", "local", "10.0.0.2", 2222⟩],
          quit := false }).2) = AvailResult.ready false
    ∧ (Avahi.l_avahi_get (Avahi.l_avahi_get
        { ret := 0, avail := 1, count := 0,
          services := [⟨"Y", "_test._tcp", "local", "10.0.0.2", 2222⟩],
          quit := false }).2).1
      = GetResult.records [⟨"Y", "_test._tcp", "local", "10.0.0.2", 2222⟩] :=
  ⟨(get_twice_same.1 _ (by decide)).2.1,
   (get_twice_same.1 _ (by decide)).2.2.trans (get_twice_same.1 _ (by decide)).1⟩

/-- Counterexample to C6: after a get on a new Avahi session, X and Y are
reported NEW and X is resolved. The list now holds X, get had returned the
empty table, and avail returns false. -/
theorem avail_false_after_change :
    (Avahi.l_avahi_get
        { ret := 0, avail := 0, count := 0, services := [], quit := false }).1
      = GetResult.records []
    ∧ (Avahi.run (Avahi.l_avahi_get
          { ret := 0, avail := 0, count := 0, services := [], quit := false }).2
        [.browse .NEW "X" "_test._tcp" "local" 0,
         .browse .NEW "Y" "_test._tcp" "local" 0,
         .resolve .FOUND "X" "_test._tcp" "local" "10.0.0.1" 1111]).services
      = [⟨"X", "_test._tcp", "local", "10.0.0.1", 1111⟩]
    ∧ Avahi.l_avahi_avail (some (Avahi.run (Avahi.l_avahi_get
          { ret := 0, avail := 0, count := 0, services := [], quit := false }).2
        [.browse .NEW "X" "_test._tcp" "local" 0,
         .browse .NEW "Y" "_test._tcp" "local" 0,
         .resolve .FOUND "X" "_test._tcp" "local" "10.0.0.1" 1111]))
      = AvailResult.ready false := by
  refine ⟨by decide, by decide, by decide⟩

/-- C6 as amended. Avahi, callbacks processed after a get on a session with no
fatal error, the error code still not negative afterwards. When the sequence
contains a browser REMOVE, or a resolver FOUND that arrives while the pending
counter is 1 and so brings it to zero, avail returns true. A FOUND that
leaves other resolutions pending adds its record without setting the flag:
in a sequence without resolver FAILURE events avail returns true only in the
two cases above. So when the list differs from the one get returned and every
FOUND of the sequence brought the counter to zero, avail returns true. Nothing
is said about the flag after a resolver FAILURE. -/
theorem avail_after_get (t : Avahi.avahi_browser_t) (h : ¬ t.ret < 0)
    (evs : List Avahi.Event)
    (hno : ¬ (Avahi.run (Avahi.l_avahi_get t).2 evs).ret < 0) :
    ((∃ pre x post, evs = pre ++ x :: post
          ∧ ((∃ n ty d errno, x = Avahi.Event.browse .REMOVE n ty d errno)
            ∨ ((∃ n ty d a p, x = Avahi.Event.resolve .FOUND n ty d a p)
                ∧ (Avahi.run (Avahi.l_avahi_get t).2 pre).count = 1))) →
        Avahi.l_avahi_avail (some (Avahi.run (Avahi.l_avahi_get t).2 evs))
          = AvailResult.ready true)
    ∧ ((∀ e ∈ evs, ∀ n ty d a p, e ≠ Avahi.Event.resolve .FAILURE n ty d a p) →
        Avahi.l_avahi_avail (some (Avahi.run (Avahi.l_avahi_get t).2 evs))
          = AvailResult.ready true →
        ∃ pre x post, evs = pre ++ x :: post
          ∧ ((∃ n ty d errno, x = Avahi.Event.browse .REMOVE n ty d errno)
            ∨ ((∃ n ty d a p, x = Avahi.Event.resolve .FOUND n ty d a p)
                ∧ (Avahi.run (Avahi.l_avahi_get t).2 pre).count = 1)))
    ∧ (Avahi.l_avahi_avail (some (Avahi.run (Avahi.l_avahi_get t).2 evs))
          = AvailResult.ready true
        ∨ Avahi.l_avahi_avail (some (Avahi.run (Avahi.l_avahi_get t).2 evs))
          = AvailResult.ready false)
    ∧ ((∀ pre x post, evs = pre ++ x :: post →
          (∃ n ty d a p, x = Avahi.Event.resolve .FOUND n ty d a p) →
          (Avahi.run (Avahi.l_avahi_get t).2 pre).count = 1) →
        GetResult.records (Avahi.run (Avahi.l_avahi_get t).2 evs).services
          ≠ (Avahi.l_avahi_get t).1 →
        Avahi.l_avahi_avail (some (Avahi.run (Avahi.l_avahi_get t).2 evs))
          = AvailResult.ready true) := by
  have hget : Avahi.l_avahi_get t = (GetResult.records t.services, { t with avail := 0 }) := by
    simp [Avahi.l_avahi_get, h]
  rw [hget] at hno ⊢
  simp only at hno ⊢
  have hbit := Avahi.run_avail_bit evs { t with avail := 0 } (Or.inl rfl)
  have hav := Avahi.run_avail evs { t with avail := 0 }
  simp only [zero_ne_one, false_or] at hav
  have hval : Avahi.l_avahi_avail (some (Avahi.run { t with avail := 0 } evs))
      = AvailResult.ready (decide ((Avahi.run { t with avail := 0 } evs).avail ≠ 0)) := by
    rcases hbit with h0 | h1
    · simp [Avahi.l_avahi_avail, Avahi.avahi_avail, hno, h0]
    · simp [Avahi.l_avahi_avail, Avahi.avahi_avail, hno, h1]
  have hiff : Avahi.l_avahi_avail (some (Avahi.run { t with avail := 0 } evs))
      = AvailResult.ready true ↔ (Avahi.run { t with avail := 0 } evs).avail = 1 := by
    rw [hval]
    rcases hbit with h0 | h1
    · simp [h0]
    · simp [h1]
  refine ⟨(hiff.trans hav).2, fun _ => (hiff.trans hav).1, ?_, ?_⟩
  · rw [hval]
    rcases hbit with h0 | h1
    · right; simp [h0]
    · left; simp [h1]
  · intro hall hdiff
    rw [hiff, hav]
    by_contra hnone
    apply hdiff
    have hkeep : ∀ x ∈ evs, Avahi.listOp x = ListOp.keep := by
      intro x hx
      obtain ⟨pre, post, hsplit⟩ := List.append_of_mem hx
      apply Avahi.listOp_keep
      · intro hrem
        exact hnone ⟨pre, x, post, hsplit, Or.inl hrem⟩
      · intro hfound
        exact hnone ⟨pre, x, post, hsplit, Or.inr ⟨hfound, hall pre x post hsplit hfound⟩⟩
    rw [Avahi.run_services_keep evs _ hkeep]

/-- Witness of C6 as amended: X reported NEW and resolved after a get on a
new session; the FOUND brings the counter from 1 to 0 and avail returns
true. -/
theorem avail_after_get_witness :
    Avahi.l_avahi_avail (some (Avahi.run (Avahi.l_avahi_get
          { ret := 0, avail := 0, count := 0, services := [], quit := false }).2
        [.browse .NEW "X" "_test._tcp" "local" 0,
         .resolve .FOUND "X" "_test._tcp" "local" "10.0.0.1" 1111]))
      = AvailResult.ready true :=
  (avail_after_get { ret := 0, avail := 0, count := 0, services := [], quit := false }
      (by decide)
      [.browse .NEW "X" "_test._tcp" "local" 0,
       .resolve .FOUND "X" "_test._tcp" "local" "10.0.0.1" 1111] (by decide)).1
    ⟨[.browse .NEW "X" "_test._tcp" "local" 0],
     .resolve .FOUND "X" "_test._tcp" "local" "10.0.0.1" 1111, [], rfl,
     Or.inr ⟨⟨_, _, _, _, _, rfl⟩, by decide⟩⟩

/-- C9. A failed resolution leaves the session alone. Avahi: a resolver
FAILURE event changes only the pending counter, which goes down by one; the
result list, the readiness flag and the error code stay. Bonjour: the resolve
callback never changes the session, whether it reports an error, or the
address lookup cannot be started (Linux build, error from the daemon, thread
not created), in which cases no lookup context is left either; and an address
lookup callback that reports an error leaves the session unchanged. -/
theorem failed_resolution_frame :
    (∀ (t : Avahi.avahi_browser_t) (name type domain a : String) (port : Nat),
      Avahi.resolve_callback t .FAILURE name type domain a port
        = { t with count := t.count - 1 })
    ∧ (∀ (linux : Bool) (t : Bonjour.bonjour_browser_t) (r : Bonjour.bonjour_resolver_t)
        (ret : Int) (port : Nat) (getAddrRet threadRet : Int),
      (Bonjour.resolve_callback linux t r ret port getAddrRet threadRet).1 = t
        ∧ ((ret ≠ 0 ∨ linux = true ∨ getAddrRet ≠ 0 ∨ threadRet ≠ 0) →
            (Bonjour.resolve_callback linux t r ret port getAddrRet threadRet).2.2 = none))
    ∧ (∀ (t : Bonjour.bonjour_browser_t) (r : Bonjour.bonjour_resolver_t) (ret : Int)
        (addr : Nat), ret ≠ 0 →
      (Bonjour.getaddr_callback t r ret addr).1 = t) := by
  refine ⟨?_, ?_, ?_⟩
  · intro t name type domain a port
    rfl
  · intro linux t r ret port getAddrRet threadRet
    refine ⟨Bonjour.resolve_callback_session linux t r ret port getAddrRet threadRet, ?_⟩
    intro h
    simp only [Bonjour.resolve_callback, Bonjour.kDNSServiceErr_NoError,
      Bonjour.kDNSServiceErr_Unsupported]
    by_cases h1 : ret = 0
    · by_cases h2 : linux = true
      · simp [h1, h2]
      · by_cases h3 : getAddrRet = 0
        · have h4 : threadRet ≠ 0 := by
            rcases h with h | h | h | h
            · exact absurd h1 h
            · exact absurd h h2
            · exact absurd h3 h
            · exact h
          simp [h1, h2, h3, h4]
        · simp [h1, h2, h3]
    · simp [h1]
  · intro t r ret addr h
    simp [Bonjour.getaddr_callback, Bonjour.kDNSServiceErr_NoError, h]

/-- Witness of C9: an Avahi session with two pending resolutions and one
record; a resolver FAILURE leaves one pending resolution and the rest as it
was. A Bonjour address lookup that fails with -65537 leaves the session as it
was. -/
theorem failed_resolution_frame_witness :
    Avahi.resolve_callback
        { ret := 0, avail := 1, count := 2,
          services := [⟨"Y", "_test._tcp", "local", "10.0.0.2", 2222⟩], quit := false }
        .FAILURE "X" "_test._tcp" "local" "" 0
      = { ret := 0, avail := 1, count := 1,
          services := [⟨"Y", "_test._tcp", "local", "10.0.0.2", 2222⟩], quit := false }
    ∧ (Bonjour.getaddr_callback
        { done := false, gc := false, ret := 0, avail := 0, services := [] }
        ⟨false, false, "X", "_test._tcp", "local", 1111⟩ (-65537) 0).1
      = { done := false, gc := false, ret := 0, avail := 0, services := [] } :=
  ⟨failed_resolution_frame.1 _ "X" "_test._tcp" "local" "" 0,
   failed_resolution_frame.2.2 _ _ (-65537) 0 (by decide)⟩

/-- C10, the code at the failing input. Bonjour: a browse callback delivers the
error -65537, after which avail and get return -65537. A further browse
callback with no error (here a removal) stores its own code 0 in the session:
avail then returns true and get returns a table, not the error. -/
theorem browse_error_overwritten :
    Bonjour.l_bonjour_avail (some (Bonjour.run
        { done := false, gc := false, ret := 0, avail := 0, services := [] }
        [.browse 0 (-65537) "" "" "" 0 0])) = AvailResult.error (-65537)
    ∧ (Bonjour.l_bonjour_get (Bonjour.run
        { done := false, gc := false, ret := 0, avail := 0, services := [] }
        [.browse 0 (-65537) "" "" "" 0 0])).1 = GetResult.error (-65537)
    ∧ Bonjour.l_bonjour_avail (some (Bonjour.run
        { done := false, gc := false, ret := 0, avail := 0, services := [] }
        [.browse 0 (-65537) "" "" "" 0 0,
         .browse 0 0 "X" "_test._tcp" "local" 0 0])) = AvailResult.ready true
    ∧ (Bonjour.l_bonjour_get (Bonjour.run
        { done := false, gc := false, ret := 0, avail := 0, services := [] }
        [.browse 0 (-65537) "" "" "" 0 0,
         .browse 0 0 "X" "_test._tcp" "local" 0 0])).1 = GetResult.records [] := by
  refine ⟨by decide, by decide, by decide, by decide⟩

/-! ## Waiting for the outcome -/

/-- Once the poll object has been told to quit while the outcome is still 0,
the wait loop of check is still running after any number of iterations. -/
theorem check_wait_quit (alt : String → String) (t : Avahi.avahi_service_t)
    (hret : t.ret = 0) (hquit : t.quit = true) :
    ∀ iterations : List (List Avahi.PublisherEvent),
      Avahi.check_wait alt t iterations = none := by
  intro iterations
  induction iterations with
  | nil => simp [Avahi.check_wait, hret]
  | cons it rest ih => simp [Avahi.check_wait, hret, hquit, ih]

/-- C11, the code at the failing input. Avahi: publish succeeds, the client
RUNNING callback calls create_services, and avahi_entry_group_new returns no
group. create_services takes its failure path, which stops the event loop and
leaves the outcome code at 0; the wait loop of check is then still running
after any number of iterations, so check returns nothing at all. The other
two failure paths of create_services (add or commit returning an error other
than a collision) do store the error code, and check returns it. -/
theorem check_never_returns_after_group_failure (alt : String → String) (name type : String)
    (port errno : Int) (empty : Bool) (add commit : Int)
    (later : List (List Avahi.PublisherEvent)) :
    Avahi.create_services alt
        { group := false, name := name, type := type, port := (port % 65536).toNat,
          ret := 0, quit := false }
        [{ newOk := false, empty := empty, add := add, commit := commit }]
      = some { group := false, name := name, type := type, port := (port % 65536).toNat,
               ret := 0, quit := true }
    ∧ Avahi.l_avahi_check alt (Avahi.avahi_publish name type port true true)
        ([.client .S_RUNNING errno
            [{ newOk := false, empty := empty, add := add, commit := commit }]] :: later)
      = none
    ∧ Avahi.l_avahi_check alt (Avahi.avahi_publish name type port true true)
        ([.client .S_RUNNING errno
            [{ newOk := true, empty := true, add := -1, commit := 0 }]] :: later)
      = some (CheckResult.error (-1),
          some { group := true, name := name, type := type, port := (port % 65536).toNat,
                 ret := -1, quit := true })
    ∧ Avahi.l_avahi_check alt (Avahi.avahi_publish name type port true true)
        ([.client .S_RUNNING errno
            [{ newOk := true, empty := true, add := 0, commit := -1 }]] :: later)
      = some (CheckResult.error (-1),
          some { group := true, name := name, type := type, port := (port % 65536).toNat,
                 ret := -1, quit := true }) := by
  refine ⟨?_, ?_, ?_, ?_⟩
  · simp [Avahi.create_services]
  · have h := check_wait_quit alt
      { group := false, name := name, type := type, port := (port % 65536).toNat,
        ret := 0, quit := true } rfl rfl later
    simp [Avahi.l_avahi_check, Avahi.avahi_publish, Avahi.check_wait, Avahi.dispatchAll,
      Avahi.dispatch, Avahi.client_callback, Avahi.create_services, h]
  · cases later <;>
      simp [Avahi.l_avahi_check, Avahi.avahi_publish, Avahi.check_wait, Avahi.dispatchAll,
        Avahi.dispatch, Avahi.client_callback, Avahi.create_services,
        Avahi.AVAHI_ERR_COLLISION]
  · cases later <;>
      simp [Avahi.l_avahi_check, Avahi.avahi_publish, Avahi.check_wait, Avahi.dispatchAll,
        Avahi.dispatch, Avahi.client_callback, Avahi.create_services,
        Avahi.AVAHI_ERR_COLLISION]

/-- C12, the code at the failing input. Bonjour: on the record that publish
returns, the first check calls the daemon's event processing, which delivers no
callback and returns the error -65563; check returns -65563. The second check
on the same handle, whatever the daemon would do, returns the table with the
name, type and port of publish. -/
theorem check_twice_differs (pr : Bonjour.ProcessResult) :
    (Bonjour.l_bonjour_check (Bonjour.bonjour_publish "svc-A" "_test._tcp" 9000 0)
        { callbacks := [], code := -65563 }).1 = CheckResult.error (-65563)
    ∧ (Bonjour.l_bonjour_check
        (Bonjour.l_bonjour_check (Bonjour.bonjour_publish "svc-A" "_test._tcp" 9000 0)
          { callbacks := [], code := -65563 }).2 pr).1
      = CheckResult.service "svc-A" "_test._tcp" 9000 := by
  constructor
  · decide
  · simp [Bonjour.l_bonjour_check, Bonjour.bonjour_publish, Bonjour.deliver,
      Bonjour.kDNSServiceErr_NoError]

/-! ## The null handle -/

/-- C13, the code at the failing input. The verbs unpublish, check, close and
avail of both backends test the handle first: on the null handle unpublish
and close make no call, check pushes nothing and avail pushes false. The verb
get of both backends has no such test and goes through the null handle. -/
theorem get_null_handle :
    (Avahi.l_avahi_get_handle none = Completion.nullDereference
      ∧ Bonjour.l_bonjour_get_handle none = Completion.nullDereference)
    ∧ (Avahi.avahi_unpublish none = [] ∧ Avahi.avahi_close none = []
      ∧ Avahi.l_avahi_avail none = AvailResult.ready false
      ∧ ∀ (alt : String → String) (iterations : List (List Avahi.PublisherEvent)),
          Avahi.l_avahi_check alt none iterations = some (CheckResult.nothing, none))
    ∧ (Bonjour.bonjour_unpublish none = [] ∧ Bonjour.bonjour_close none = []
      ∧ Bonjour.l_bonjour_avail none = AvailResult.ready false
      ∧ ∀ pr : Bonjour.ProcessResult,
          Bonjour.l_bonjour_check none pr = (CheckResult.nothing, none)) := by
  refine ⟨⟨rfl, rfl⟩, ⟨rfl, rfl, by decide, fun _ _ => rfl⟩, ⟨rfl, rfl, by decide, fun _ => rfl⟩⟩

/-! ## Deleting from the result list -/

/-- C15. For every list s and every name, type and domain, del_service
returns the entries of s that differ from the arguments in name, type or
domain, in their order in s and as they are (the list s filtered); in
particular it returns s itself when no entry matches, no entry that matches
is left, and every other entry of s is still there. -/
theorem del_service_removes_matches (s : List service_t) (name type domain : String) :
    del_service s name type domain
        = s.filter (fun x => decide ¬ (x.name = name ∧ x.type = type ∧ x.domain = domain))
    ∧ ((∀ x ∈ s, ¬ (x.name = name ∧ x.type = type ∧ x.domain = domain)) →
        del_service s name type domain = s)
    ∧ (∀ x ∈ del_service s name type domain,
        ¬ (x.name = name ∧ x.type = type ∧ x.domain = domain))
    ∧ (∀ x ∈ s, ¬ (x.name = name ∧ x.type = type ∧ x.domain = domain) →
        x ∈ del_service s name type domain)
    ∧ List.Sublist (del_service s name type domain) s := by
  have hf : del_service s name type domain
      = s.filter (fun x => decide ¬ (x.name = name ∧ x.type = type ∧ x.domain = domain)) := by
    rw [show del_service s name type domain
        = del_service s (name, type, domain).1 (name, type, domain).2.1
            (name, type, domain).2.2 from rfl, del_service_eq_filter]
    apply List.filter_congr
    intro x _
    simp [key]
  refine ⟨hf, ?_, ?_, ?_, ?_⟩
  · intro h
    rw [hf, List.filter_eq_self]
    intro x hx
    exact decide_eq_true (h x hx)
  · intro x hx
    rw [hf] at hx
    exact of_decide_eq_true (List.mem_filter.1 hx).2
  · intro x hx hne
    rw [hf]
    exact List.mem_filter.2 ⟨hx, decide_eq_true hne⟩
  · rw [hf]
    exact List.filter_sublist _

/-- Witness of C15: matching entries at the head, next to each other in the
middle and at the tail; the two other entries are left, in their order. A
list without a match comes back as it is. -/
theorem del_service_removes_matches_witness :
    del_service
        [⟨"X", "_t", "local", "10.0.0.1", 1⟩, ⟨"Y", "_t", "local", "10.0.0.2", 2⟩,
         ⟨"X", "_t", "local", "10.0.0.3", 3⟩, ⟨"X", "_t", "local", "10.0.0.4", 4⟩,
         ⟨"X", "_u", "local", "10.0.0.5", 5⟩, ⟨"X", "_t", "local", "10.0.0.6", 6⟩]
        "X" "_t" "local"
      = [⟨"Y", "_t", "local", "10.0.0.2", 2⟩, ⟨"X", "_u", "local", "10.0.0.5", 5⟩]
    ∧ del_service [⟨"Y", "_t", "local", "10.0.0.2", 2⟩] "X" "_t" "local"
      = [⟨"Y", "_t", "local", "10.0.0.2", 2⟩] :=
  ⟨(del_service_removes_matches _ "X" "_t" "local").1.trans (by decide),
   (del_service_removes_matches _ "X" "_t" "local").2.1 (by decide)⟩

/-! ## The port -/

/-- C17. On both backends publish stores the port modulo 65536 and its
result does not depend on the port: with the daemon answering, publish
returns a record for every integer port, and check after a successful
establishment reports the port modulo 65536. For a port outside 0..65535
that number differs from the port given. -/
theorem publish_port_mod (name type : String) (port : Int) :
    (∀ (alt : String → String) (errno : Int) (replies : List Avahi.GroupReply)
        (later : List (List Avahi.PublisherEvent)),
      (Avahi.l_avahi_check alt (Avahi.avahi_publish name type port true true)
          ([.entryGroup .ESTABLISHED errno replies] :: later)).map Prod.fst
        = some (CheckResult.service name type (port % 65536).toNat))
    ∧ (Bonjour.l_bonjour_check (Bonjour.bonjour_publish name type port 0)
          { callbacks := [{ ret := 0, name := name, type := type }], code := 0 }).1
        = CheckResult.service name type (port % 65536).toNat
    ∧ (∀ pollOk clientOk : Bool,
        (Avahi.avahi_publish name type port pollOk clientOk).isSome
          = (Avahi.avahi_publish name type 0 pollOk clientOk).isSome)
    ∧ (∀ err : Int,
        (Bonjour.bonjour_publish name type port err).isSome
          = (Bonjour.bonjour_publish name type 0 err).isSome)
    ∧ (((port % 65536).toNat : Int) = port % 65536)
    ∧ (¬ (0 ≤ port ∧ port ≤ 65535) → ((port % 65536).toNat : Int) ≠ port) := by
  refine ⟨?_, ?_, ?_, ?_, ?_, ?_⟩
  · intro alt errno replies later
    simp [Avahi.l_avahi_check, Avahi.avahi_publish, Avahi.check_wait, Avahi.dispatchAll,
      Avahi.dispatch, Avahi.entry_group_callback]
    cases later <;> simp [Avahi.check_wait]
  · simp [Bonjour.l_bonjour_check, Bonjour.bonjour_publish, Bonjour.deliver,
      Bonjour.register_callback, Bonjour.kDNSServiceErr_NoError]
  · intro pollOk clientOk
    cases pollOk <;> cases clientOk <;> rfl
  · intro err
    by_cases h : err = 0 <;> simp [Bonjour.bonjour_publish, Bonjour.kDNSServiceErr_NoError, h]
  · omega
  · intro h
    omega

/-- Witness of C17: port 70000 is reported as 4464 and port -1 as 65535, on
the Bonjour backend. -/
theorem publish_port_mod_witness :
    (Bonjour.l_bonjour_check (Bonjour.bonjour_publish "svc-A" "_test._tcp" 70000 0)
          { callbacks := [{ ret := 0, name := "svc-A", type := "_test._tcp" }], code := 0 }).1
        = CheckResult.service "svc-A" "_test._tcp" 4464
    ∧ (Bonjour.l_bonjour_check (Bonjour.bonjour_publish "svc-A" "_test._tcp" (-1) 0)
          { callbacks := [{ ret := 0, name := "svc-A", type := "_test._tcp" }], code := 0 }).1
        = CheckResult.service "svc-A" "_test._tcp" 65535 :=
  ⟨(publish_port_mod "svc-A" "_test._tcp" 70000).2.1,
   (publish_port_mod "svc-A" "_test._tcp" (-1)).2.1⟩

/-! ## The address text -/

set_option maxRecDepth 100000 in
/-- The decimal text of a number below 256 has no dot in it and reads back as
the number. -/
theorem byte_text (x : Nat) (hx : x < 256) :
    '.' ∉ (toString x).data ∧ Bonjour.digitsValue (toString x).data = x := by
  revert x
  decide

/-- Two lists cut at the first occurrence of `c` are equal only when both
parts are. -/
theorem split_at_first {α : Type} (c : α) :
    ∀ (l1 l2 r1 r2 : List α), c ∉ l1 → c ∉ l2 → l1 ++ c :: r1 = l2 ++ c :: r2 →
      l1 = l2 ∧ r1 = r2 := by
  intro l1
  induction l1 with
  | nil =>
    intro l2 r1 r2 _ h2 h
    cases l2 with
    | nil => exact ⟨rfl, by simpa using h⟩
    | cons b l2 =>
      simp only [List.nil_append, List.cons_append, List.cons.injEq] at h
      exact absurd (h.1 ▸ List.mem_cons_self _ _) h2
  | cons a l1 ih =>
    intro l2 r1 r2 h1 h2 h
    cases l2 with
    | nil =>
      simp only [List.nil_append, List.cons_append, List.cons.injEq] at h
      exact absurd (h.1 ▸ List.mem_cons_self _ _) h1
    | cons b l2 =>
      simp only [List.cons_append, List.cons.injEq] at h
      obtain ⟨h3, h4⟩ := ih l2 r1 r2 (fun hm => h1 (List.mem_cons_of_mem _ hm))
        (fun hm => h2 (List.mem_cons_of_mem _ hm)) h.2
      exact ⟨by rw [h.1, h3], h4⟩

theorem ip_text_eq (a : Nat) :
    Bonjour.ip_text a
      = toString (a % 256) ++ "." ++ toString (a / 2 ^ 8 % 256) ++ "."
          ++ toString (a / 2 ^ 16 % 256) ++ "." ++ toString (a / 2 ^ 24 % 256) := by
  have h : ∀ x : Nat, x &&& 0xff = x % 256 := by
    intro x
    simpa using Nat.and_pow_two_sub_one_eq_mod x 8
  simp only [Bonjour.ip_text, h, Nat.shiftRight_eq_div_pow]

theorem ip_text_bytes (a b : Nat) (h : Bonjour.ip_text a = Bonjour.ip_text b) :
    a % 256 = b % 256 ∧ a / 2 ^ 8 % 256 = b / 2 ^ 8 % 256
      ∧ a / 2 ^ 16 % 256 = b / 2 ^ 16 % 256 ∧ a / 2 ^ 24 % 256 = b / 2 ^ 24 % 256 := by
  rw [ip_text_eq, ip_text_eq] at h
  have hd := congrArg String.data h
  simp only [String.data_append, List.append_assoc] at hd
  have hdot : (".").data = ['.'] := rfl
  simp only [hdot, List.singleton_append] at hd
  have lt : ∀ x : Nat, x % 256 < 256 := fun x => Nat.mod_lt x (by decide)
  obtain ⟨e1, hd⟩ := split_at_first '.' _ _ _ _ (byte_text _ (lt a)).1 (byte_text _ (lt b)).1 hd
  obtain ⟨e2, hd⟩ := split_at_first '.' _ _ _ _ (byte_text _ (lt _)).1 (byte_text _ (lt _)).1 hd
  obtain ⟨e3, e4⟩ := split_at_first '.' _ _ _ _ (byte_text _ (lt _)).1 (byte_text _ (lt _)).1 hd
  have v : ∀ x y : Nat, (toString (x % 256)).data = (toString (y % 256)).data →
      x % 256 = y % 256 := by
    intro x y hxy
    rw [← (byte_text _ (lt x)).2, ← (byte_text _ (lt y)).2, hxy]
  exact ⟨v _ _ e1, v _ _ e2, v _ _ e3, v _ _ e4⟩

/-- C16. Bonjour, an address lookup without error that delivers the 32-bit
value a: the node linked in carries as address the decimal texts of a mod 256,
(a / 2^8) mod 256, (a / 2^16) mod 256 and (a / 2^24) mod 256 joined by dots;
each of the four numbers is below 256; another 32-bit value b with the same
text is a itself; and the value with the bytes 10, 0, 0, 1 from lowest to
highest gives the text 10.0.0.1. -/
theorem address_text (t : Bonjour.bonjour_browser_t) (r : Bonjour.bonjour_resolver_t)
    (a b : Nat) (ha : a < 2 ^ 32) (hb : b < 2 ^ 32) :
    (Bonjour.getaddr_callback t r 0 a).1.services
        = { name := r.name, type := r.type, domain := r.domain,
            addr := toString (a % 256) ++ "." ++ toString (a / 2 ^ 8 % 256) ++ "."
              ++ toString (a / 2 ^ 16 % 256) ++ "." ++ toString (a / 2 ^ 24 % 256),
            port := r.port } :: t.services
    ∧ (a % 256 ≤ 255 ∧ a / 2 ^ 8 % 256 ≤ 255 ∧ a / 2 ^ 16 % 256 ≤ 255
        ∧ a / 2 ^ 24 % 256 ≤ 255)
    ∧ (Bonjour.ip_text a = Bonjour.ip_text b → a = b)
    ∧ Bonjour.ip_text (10 + 0 * 2 ^ 8 + 0 * 2 ^ 16 + 1 * 2 ^ 24) = "10.0.0.1" := by
  refine ⟨?_, ?_, ?_, by decide⟩
  · simp [Bonjour.getaddr_callback, Bonjour.kDNSServiceErr_NoError, add_service, ip_text_eq]
  · omega
  · intro h
    have hbytes := ip_text_bytes a b h
    simp only [show (2 : Nat) ^ 8 = 256 from rfl, show (2 : Nat) ^ 16 = 65536 from rfl,
      show (2 : Nat) ^ 24 = 16777216 from rfl] at hbytes
    have ha1 : a < 4294967296 := ha
    have hb1 : b < 4294967296 := hb
    omega

/-- Witness of C16: the addresses 10.0.0.1 and 10.0.0.2 as 32-bit values; the
node for the first carries the text 10.0.0.1, and the two texts differ. -/
theorem address_text_witness :
    (Bonjour.getaddr_callback
        { done := false, gc := false, ret := 0, avail := 0, services := [] }
        ⟨false, false, "X", "_test._tcp", "local", 1111⟩ 0 0x0100000a).1.services
      = [⟨"X", "_test._tcp", "local", "10.0.0.1", 1111⟩]
    ∧ Bonjour.ip_text 0x0100000a ≠ Bonjour.ip_text 0x0200000a := by
  have h := address_text { done := false, gc := false, ret := 0, avail := 0, services := [] }
    ⟨false, false, "X", "_test._tcp", "local", 1111⟩ 0x0100000a 0x0200000a
    (by decide) (by decide)
  refine ⟨h.1.trans (by decide), ?_⟩
  intro he
  exact absurd (h.2.2.1 he) (by decide)

/-! ## The session mutex -/

/-- Counterexample to C14. The Avahi resolver FAILURE callback and the Avahi
browser NEW callback update the pending counter without the mutex, and the
Bonjour browse callback, for an added instance, calls DNSServiceResolve and
pthread_create with the mutex held. -/
theorem lock_discipline_broken :
    guarded [.services, .avail, .count] false
        (Avahi.resolve_callback_traced
          { ret := 0, avail := 0, count := 1, services := [], quit := false }
          .FAILURE "X" "_test._tcp" "local" "" 0).2 = false
    ∧ guarded [.services, .avail, .count] false
        (Avahi.browse_callback_traced
          { ret := 0, avail := 0, count := 0, services := [], quit := false }
          .NEW "X" "_test._tcp" "local" 0).2 = false
    ∧ tight false
        (Bonjour.browse_callback_traced
          { done := false, gc := false, ret := 0, avail := 0, services := [] }
          2 0 "X" "_test._tcp" "local" 0 0).2 = false := by
  refine ⟨by decide, by decide, by decide⟩

/-- C14 as amended. The statement-by-statement functions compute what the
embedded callbacks and verbs compute, and their operations show: in every
callback of a browser session and in avail and get, on both backends, each
read or write of the result list and of the readiness flag happens while the
session mutex is held. The Avahi pending counter is updated with the mutex
held in the resolver FOUND callback, and without it in resolver FAILURE and
browser NEW. In the Avahi callbacks and in avail and get of both backends the
mutex is never held across a call into the daemon or a thread creation; the
same holds for the Bonjour resolve and address callbacks, and for the Bonjour
browse callback exactly when it reports an error or a removal: for an added
instance it keeps the mutex across DNSServiceResolve and pthread_create. -/
theorem lock_discipline :
    (∀ (t : Avahi.avahi_browser_t) (ev : Avahi.AvahiResolverEvent)
        (name type domain a : String) (port : Nat),
        (Avahi.resolve_callback_traced t ev name type domain a port).1
            = Avahi.resolve_callback t ev name type domain a port
          ∧ guarded [.services, .avail] false
              (Avahi.resolve_callback_traced t ev name type domain a port).2 = true
          ∧ tight false (Avahi.resolve_callback_traced t ev name type domain a port).2 = true
          ∧ guarded [.count] false
              (Avahi.resolve_callback_traced t ev name type domain a port).2
            = decide (ev = .FOUND))
    ∧ (∀ (t : Avahi.avahi_browser_t) (ev : Avahi.AvahiBrowserEvent)
        (name type domain : String) (errno : Int),
        (Avahi.browse_callback_traced t ev name type domain errno).1
            = Avahi.browse_callback t ev name type domain errno
          ∧ guarded [.services, .avail] false
              (Avahi.browse_callback_traced t ev name type domain errno).2 = true
          ∧ tight false (Avahi.browse_callback_traced t ev name type domain errno).2 = true
          ∧ guarded [.count] false (Avahi.browse_callback_traced t ev name type domain errno).2
            = decide (ev ≠ .NEW))
    ∧ (∀ t : Option Avahi.avahi_browser_t,
        (Avahi.avahi_avail_traced t).1 = Avahi.avahi_avail t
          ∧ guarded [.services, .avail, .count] false (Avahi.avahi_avail_traced t).2 = true
          ∧ tight false (Avahi.avahi_avail_traced t).2 = true)
    ∧ (∀ t : Avahi.avahi_browser_t,
        (Avahi.l_avahi_get_traced t).1 = Avahi.l_avahi_get t
          ∧ guarded [.services, .avail, .count] false (Avahi.l_avahi_get_traced t).2 = true
          ∧ tight false (Avahi.l_avahi_get_traced t).2 = true)
    ∧ (∀ (t : Bonjour.bonjour_browser_t) (r : Bonjour.bonjour_resolver_t) (ret : Int)
        (addr : Nat),
        (Bonjour.getaddr_callback_traced t r ret addr).1 = Bonjour.getaddr_callback t r ret addr
          ∧ guarded [.services, .avail, .count] false
              (Bonjour.getaddr_callback_traced t r ret addr).2 = true
          ∧ tight false (Bonjour.getaddr_callback_traced t r ret addr).2 = true)
    ∧ (∀ (linux : Bool) (t : Bonjour.bonjour_browser_t) (r : Bonjour.bonjour_resolver_t)
        (ret : Int) (port : Nat) (getAddrRet threadRet : Int),
        (Bonjour.resolve_callback_traced linux t r ret port getAddrRet threadRet).1
            = Bonjour.resolve_callback linux t r ret port getAddrRet threadRet
          ∧ guarded [.services, .avail, .count] false
              (Bonjour.resolve_callback_traced linux t r ret port getAddrRet threadRet).2 = true
          ∧ tight false
              (Bonjour.resolve_callback_traced linux t r ret port getAddrRet threadRet).2 = true)
    ∧ (∀ (t : Bonjour.bonjour_browser_t) (flags : Nat) (ret : Int)
        (name type domain : String) (resolveRet threadRet : Int),
        (Bonjour.browse_callback_traced t flags ret name type domain resolveRet threadRet).1
            = Bonjour.browse_callback t flags ret name type domain resolveRet threadRet
          ∧ guarded [.services, .avail, .count] false
              (Bonjour.browse_callback_traced t flags ret name type domain resolveRet
                threadRet).2 = true
          ∧ (tight false
              (Bonjour.browse_callback_traced t flags ret name type domain resolveRet
                threadRet).2 = true
              ↔ (ret ≠ 0 ∨ flags &&& 2 = 0)))
    ∧ (∀ t : Option Bonjour.bonjour_browser_t,
        (Bonjour.bonjour_avail_traced t).1 = Bonjour.bonjour_avail t
          ∧ guarded [.services, .avail, .count] false (Bonjour.bonjour_avail_traced t).2 = true
          ∧ tight false (Bonjour.bonjour_avail_traced t).2 = true)
    ∧ (∀ t : Bonjour.bonjour_browser_t,
        (Bonjour.l_bonjour_get_traced t).1 = Bonjour.l_bonjour_get t
          ∧ guarded [.services, .avail, .count] false (Bonjour.l_bonjour_get_traced t).2 = true
          ∧ tight false (Bonjour.l_bonjour_get_traced t).2 = true) := by
  refine ⟨?_, ?_, ?_, ?_, ?_, ?_, ?_, ?_, ?_⟩
  · intro t ev name type domain a port
    cases ev
    · by_cases hc : t.count - 1 = 0 <;>
        simp [Avahi.resolve_callback_traced, Avahi.resolve_callback, traceOp, traceUpd,
          guarded, tight, hc]
    · simp [Avahi.resolve_callback_traced, Avahi.resolve_callback, traceOp, traceUpd,
        guarded, tight]
  · intro t ev name type domain errno
    cases ev <;>
      simp [Avahi.browse_callback_traced, Avahi.browse_callback, traceOp, traceUpd,
        guarded, tight]
  · intro t
    cases t with
    | none => simp [Avahi.avahi_avail_traced, Avahi.avahi_avail, guarded, tight]
    | some t =>
      by_cases h : t.ret < 0 <;>
        simp [Avahi.avahi_avail_traced, Avahi.avahi_avail, guarded, tight, h]
  · intro t
    by_cases h : t.ret < 0 <;>
      simp [Avahi.l_avahi_get_traced, Avahi.l_avahi_get, traceOp, traceUpd, guarded, tight, h]
  · intro t r ret addr
    by_cases h : ret = 0 <;>
      simp [Bonjour.getaddr_callback_traced, Bonjour.getaddr_callback,
        Bonjour.kDNSServiceErr_NoError, traceOp, traceUpd, guarded, tight, h]
  · intro linux t r ret port getAddrRet threadRet
    by_cases h1 : ret = 0 <;> cases linux <;> by_cases h3 : getAddrRet = 0 <;>
      by_cases h4 : threadRet = 0 <;>
      simp [Bonjour.resolve_callback_traced, Bonjour.resolve_callback,
        Bonjour.kDNSServiceErr_NoError, Bonjour.kDNSServiceErr_Unsupported,
        guarded, tight, h1, h3, h4]
  · intro t flags ret name type domain resolveRet threadRet
    by_cases h1 : ret = 0 <;> by_cases h2 : flags &&& 2 = 0 <;>
      by_cases h3 : resolveRet = 0 <;> by_cases h4 : threadRet = 0 <;>
      simp [Bonjour.browse_callback_traced, Bonjour.browse_callback,
        Bonjour.kDNSServiceErr_NoError, Bonjour.kDNSServiceFlagsAdd, traceOp, traceUpd,
        guarded, tight, h1, h2, h3, h4]
  · intro t
    cases t with
    | none => simp [Bonjour.bonjour_avail_traced, Bonjour.bonjour_avail, guarded, tight]
    | some t =>
      by_cases h : t.ret < 0 <;>
        simp [Bonjour.bonjour_avail_traced, Bonjour.bonjour_avail, guarded, tight, h]
  · intro t
    by_cases h : t.ret < 0 <;>
      simp [Bonjour.l_bonjour_get_traced, Bonjour.l_bonjour_get, traceOp, traceUpd, guarded,
        tight, h]
